import Mathlib

/-!
Verification of the `echo` HTTP request router (`src/router.go`) against its
natural-language specification.

The embedding mirrors the Go code at byte level: Go strings are modelled as
lists of bytes (`Str := List Nat`, each entry < 256 for UTF-8 data), and the
mutable radix-tree of `*node` pointers is modelled as an arena — a list of
node records indexed by natural numbers, with parent/child links stored as
indices.  Insertion, removal and matching are pure functions that thread the
arena; loops with non-structural termination carry explicit fuel, always
instantiated large enough for the computation at hand.
-/

namespace Echo

/-- Go strings, viewed as byte sequences (the router compares and slices
strings byte-wise, e.g. the matcher's LCP loop). -/
abbrev Str := List Nat

/-- UTF-8 encoding of a single character, used to turn Lean string literals
into the byte sequences Go would see. -/
def charUtf8 (c : Char) : List Nat :=
  let n := c.toNat
  if n < 128 then [n]
  else if n < 2048 then [192 + n / 64, 128 + n % 64]
  else if n < 65536 then [224 + n / 4096, 128 + (n / 64) % 64, 128 + n % 64]
  else [240 + n / 262144, 128 + (n / 4096) % 64, 128 + (n / 64) % 64, 128 + n % 64]

/-- Byte sequence of a Lean string literal (UTF-8, as Go stores strings). -/
def bytes (s : String) : Str :=
  s.data.foldr (fun c acc => charUtf8 c ++ acc) []

/-- Node kinds are a `uint8` in Go (`staticKind`, `paramKind`, `anyKind`);
the matcher does arithmetic on them (`previous.kind + 1`), so we keep them
as naturals. -/
abbrev NKind := Nat

def staticKind : NKind := 0
def paramKind : NKind := 1
def anyKind : NKind := 2

/-- `paramLabel = byte(':')`. -/
def paramLabel : Nat := 58
/-- `anyLabel = byte('*')`. -/
def anyLabel : Nat := 42
/-- The byte `'/'`. -/
def slashByte : Nat := 47
/-- The byte `'%'`. -/
def percentByte : Nat := 37
/-- The byte `'\'`. -/
def backslashByte : Nat := 92

/-- Opaque handler values.  `notFoundH` and `methodNotAllowedH` stand for the
router's stock `notFoundHandler` / `methodNotAllowedHandler` functions;
`user n` stands for a caller-supplied handler. -/
inductive HandlerFunc where
  | user (id : Nat)
  | notFoundH
  | methodNotAllowedH
deriving DecidableEq, Repr

/-- The internal `routeInfo` struct (its fields `method`, `path`, `params`,
`name` are the ones read by the router: `rm.routeInfo.path` etc.). -/
structure routeInfo where
  method : Str
  path : Str
  params : List Str
  name : Str
deriving DecidableEq, Repr

/-- The external `RouteInfo` interface as consumed by the router's registry
helpers: it exposes `Method()`, `Path()`, `Name()`, `Params()`. -/
structure RouteInfo where
  method : Str
  path : Str
  name : Str
  params : List Str
deriving DecidableEq, Repr

/-- `routeMethod`: handler record stored in a node's method table. -/
structure routeMethod where
  info : routeInfo
  handler : Option HandlerFunc
  orgRouteInfo : Option RouteInfo
deriving DecidableEq, Repr

/-- `routeMethods`: direct slots for common methods plus the `anyOther`
overflow map (modelled as an association list). -/
structure routeMethods where
  connect : Option routeMethod
  delete : Option routeMethod
  get : Option routeMethod
  head : Option routeMethod
  options : Option routeMethod
  patch : Option routeMethod
  post : Option routeMethod
  propfind : Option routeMethod
  put : Option routeMethod
  trace : Option routeMethod
  report : Option routeMethod
  anyOther : List (Str × routeMethod)
deriving DecidableEq, Repr

def emptyMethods : routeMethods :=
  { connect := none, delete := none, get := none, head := none, options := none,
    patch := none, post := none, propfind := none, put := none, trace := none,
    report := none, anyOther := [] }

def MethodConnect : Str := bytes "CONNECT"
def MethodDelete : Str := bytes "DELETE"
def MethodGet : Str := bytes "GET"
def MethodHead : Str := bytes "HEAD"
def MethodOptions : Str := bytes "OPTIONS"
def MethodPatch : Str := bytes "PATCH"
def MethodPost : Str := bytes "POST"
def MethodPut : Str := bytes "PUT"
def MethodTrace : Str := bytes "TRACE"

/-- Modelled from the spec: the repository defines WebDAV method constants
`PROPFIND` and `REPORT` outside `src/router.go`; §3 lists them among the
method table's direct slots. -/
def PROPFIND : Str := bytes "PROPFIND"

/-- Modelled from the spec: see `PROPFIND`. -/
def REPORT : Str := bytes "REPORT"

/-- `routeMethods.set`: store `r` in the slot for `method`.  In the
`anyOther` branch Go deletes the entry when `r.handler == nil`
(dereferencing `r`; a literal `nil` `r` there would panic in Go — we model
it as a delete, which no claim exercises). -/
def routeMethods.set (m : routeMethods) (method : Str) (r : Option routeMethod) : routeMethods :=
  if method = MethodConnect then { m with connect := r }
  else if method = MethodDelete then { m with delete := r }
  else if method = MethodGet then { m with get := r }
  else if method = MethodHead then { m with head := r }
  else if method = MethodOptions then { m with options := r }
  else if method = MethodPatch then { m with patch := r }
  else if method = MethodPost then { m with post := r }
  else if method = PROPFIND then { m with propfind := r }
  else if method = MethodPut then { m with put := r }
  else if method = MethodTrace then { m with trace := r }
  else if method = REPORT then { m with report := r }
  else
    match r with
    | some rm =>
      if rm.handler = none then
        { m with anyOther := m.anyOther.filter (fun kv => !(kv.1 == method)) }
      else
        { m with anyOther :=
            (m.anyOther.filter (fun kv => !(kv.1 == method))) ++ [(method, rm)] }
    | none => { m with anyOther := m.anyOther.filter (fun kv => !(kv.1 == method)) }

/-- `routeMethods.find`. -/
def routeMethods.find (m : routeMethods) (method : Str) : Option routeMethod :=
  if method = MethodConnect then m.connect
  else if method = MethodDelete then m.delete
  else if method = MethodGet then m.get
  else if method = MethodHead then m.head
  else if method = MethodOptions then m.options
  else if method = MethodPatch then m.patch
  else if method = MethodPost then m.post
  else if method = PROPFIND then m.propfind
  else if method = MethodPut then m.put
  else if method = MethodTrace then m.trace
  else if method = REPORT then m.report
  else (m.anyOther.find? (fun kv => kv.1 == method)).map (fun kv => kv.2)

/-- `routeMethods.isHandler`: at least one entry present. -/
def routeMethods.isHandler (m : routeMethods) : Bool :=
  m.get.isSome || m.post.isSome || m.options.isSome || m.put.isSome ||
  m.delete.isSome || m.connect.isSome || m.head.isSome || m.patch.isSome ||
  m.propfind.isSome || m.trace.isSome || m.report.isSome || !m.anyOther.isEmpty

/-- The `node` struct.  `parent`, `staticChildren`, `paramChild`, `anyChild`
are arena indices (Go stores `*node` pointers).  Go's `prefix` field is a
Lean keyword, so it is rendered as `pref`. -/
structure node where
  kind : NKind
  label : Nat
  pref : Str
  parent : Option Nat
  staticChildren : List Nat
  originalPath : Str
  methods : routeMethods
  paramChild : Option Nat
  anyChild : Option Nat
  paramsCount : Nat
  isLeaf : Bool
  isHandler : Bool
deriving DecidableEq, Repr

/-- The zero node (used only as the out-of-range fallback of arena reads,
which never happens on the reachable states). -/
def zeroNode : node :=
  { kind := staticKind, label := 0, pref := [], parent := none, staticChildren := [],
    originalPath := [], methods := emptyMethods, paramChild := none, anyChild := none,
    paramsCount := 0, isLeaf := true, isHandler := false }

instance : Inhabited node := ⟨zeroNode⟩

/-- Dereference an arena index (Go: following a `*node` pointer). -/
def getN (ns : List node) (i : Nat) : node := ns.getD i zeroNode

/-- Write back through an arena index (Go: mutating `*node` in place). -/
def setN (ns : List node) (i : Nat) (n : node) : List node := ns.set i n

/-- The router: the tree arena (index 0 is `r.tree`, the root), the parallel
`routes` registry and the three configuration flags. -/
structure DefaultRouter where
  nodes : List node
  routes : List RouteInfo
  allowOverwritingRoute : Bool
  unescapePathParamValues : Bool
  useEscapedPathForRouting : Bool
deriving DecidableEq, Repr

/-- `RouterConfig`. -/
structure RouterConfig where
  AllowOverwritingRoute : Bool
  UnescapePathParamValues : Bool
  UseEscapedPathForMatching : Bool
deriving DecidableEq, Repr

/-- `NewRouter`: fresh router whose tree is a single root node with empty
prefix, empty method table, `isLeaf = true`, `isHandler = false`. -/
def NewRouter (config : RouterConfig) : DefaultRouter :=
  { nodes := [zeroNode],
    routes := [],
    allowOverwritingRoute := config.AllowOverwritingRoute,
    unescapePathParamValues := config.UnescapePathParamValues,
    useEscapedPathForRouting := config.UseEscapedPathForMatching }

/-- Longest common prefix length of two byte strings (the `for ; lcpLen < max
&& search[lcpLen] == currentNode.prefix[lcpLen]; lcpLen++` loops). -/
def lcpOf : Str → Str → Nat
  | a :: as, b :: bs => if a = b then lcpOf as bs + 1 else 0
  | _, _ => 0

/-- `node.findStaticChild`: first static child whose label is `l`. -/
def findStaticChild (ns : List node) (n : node) (l : Nat) : Option Nat :=
  n.staticChildren.find? (fun ci => (getN ns ci).label == l)

/-- `node.findChildWithLabel`: static children first, then the param child
for `':'`, then the catch-all child for `'*'`. -/
def findChildWithLabel (ns : List node) (n : node) (l : Nat) : Option Nat :=
  match findStaticChild ns n l with
  | some c => some c
  | none =>
    if l = paramLabel then n.paramChild
    else if l = anyLabel then n.anyChild
    else none

/-- `node.setHandler`: store `r` in the method table and recompute
`isHandler` (`true` outright when `r` carries a handler). -/
def node.setHandler (n : node) (method : Str) (r : Option routeMethod) : node :=
  let ms := n.methods.set method r
  let isH :=
    match r with
    | some rm => if rm.handler.isSome then true else ms.isHandler
    | none => ms.isHandler
  { n with methods := ms, isHandler := isH }

/-- `newNode` constructor: label is the first byte of the prefix; `isLeaf`
and `isHandler` are computed from the supplied children and method table. -/
def newNode (t : NKind) (pre : Str) (p : Option Nat) (sc : List Nat) (mh : routeMethods)
    (paramsCount : Nat) (ppath : Str) (paramChildren anyChildren : Option Nat) : node :=
  { kind := t, label := pre.headD 0, pref := pre, parent := p, staticChildren := sc,
    originalPath := ppath, paramsCount := paramsCount, methods := mh,
    paramChild := paramChildren, anyChild := anyChildren,
    isLeaf := sc.isEmpty && paramChildren.isNone && anyChildren.isNone,
    isHandler := mh.isHandler }

/-- The body of `DefaultRouter.insert`: LCP descent from node `ci` with the
remaining `search`, splitting edges and attaching children exactly as the Go
loop does.  Fuel bounds the descent depth (each descent consumes at least
one byte of `search`). -/
def insertLoop (t : NKind) (method : Str) (ri : routeMethod) :
    Nat → List node → Nat → Str → List node
  | 0, ns, _, _ => ns
  | Nat.succ fuel, ns, ci, search =>
    let cn := getN ns ci
    let searchLen := search.length
    let prefixLen := cn.pref.length
    let lcpLen := lcpOf search cn.pref
    if lcpLen = 0 then
      -- At root node
      let cn1 := { cn with label := search.headD 0, pref := search }
      let cn2 :=
        if ri.handler.isSome then
          let cnk := { cn1 with kind := t }
          let cnh := cnk.setHandler method (some ri)
          { cnh with paramsCount := ri.info.params.length, originalPath := ri.info.path }
        else cn1
      let cn3 := { cn2 with
        isLeaf := cn2.staticChildren.isEmpty && cn2.paramChild.isNone && cn2.anyChild.isNone }
      setN ns ci cn3
    else if lcpLen < prefixLen then
      -- Split node
      let newIdx := ns.length
      let n := newNode cn.kind (cn.pref.drop lcpLen) (some ci) cn.staticChildren cn.methods
        cn.paramsCount cn.originalPath cn.paramChild cn.anyChild
      let ns1 := ns ++ [n]
      -- Update parent path for all children to new node
      let ns2 := cn.staticChildren.foldl
        (fun acc c => setN acc c { getN acc c with parent := some newIdx }) ns1
      let ns3 :=
        match cn.paramChild with
        | some c => setN ns2 c { getN ns2 c with parent := some newIdx }
        | none => ns2
      let ns4 :=
        match cn.anyChild with
        | some c => setN ns3 c { getN ns3 c with parent := some newIdx }
        | none => ns3
      -- Reset parent node; "Only Static children could reach here" covers
      -- the addStaticChild call
      let cnR := { cn with
        kind := staticKind, label := cn.pref.headD 0,
        pref := cn.pref.take lcpLen, staticChildren := [newIdx], methods := emptyMethods,
        originalPath := [], paramsCount := 0, paramChild := none, anyChild := none,
        isLeaf := false, isHandler := false }
      if lcpLen = searchLen then
        -- At parent node
        let cnA := { cnR with kind := t }
        let cnB :=
          if ri.handler.isSome then
            let cnh := cnA.setHandler method (some ri)
            { cnh with paramsCount := ri.info.params.length, originalPath := ri.info.path }
          else cnA
        let cnC := { cnB with
          isLeaf := cnB.staticChildren.isEmpty && cnB.paramChild.isNone && cnB.anyChild.isNone }
        setN ns4 ci cnC
      else
        -- Create child node
        let childIdx := ns4.length
        let n2 := newNode t (search.drop lcpLen) (some ci) [] emptyMethods 0 ri.info.path
          none none
        let n2h :=
          if ri.handler.isSome then
            let nh := n2.setHandler method (some ri)
            { nh with paramsCount := ri.info.params.length }
          else n2
        let ns5 := ns4 ++ [n2h]
        let cnA := { cnR with staticChildren := cnR.staticChildren ++ [childIdx] }
        let cnB := { cnA with
          isLeaf := cnA.staticChildren.isEmpty && cnA.paramChild.isNone && cnA.anyChild.isNone }
        setN ns5 ci cnB
    else if lcpLen < searchLen then
      let search2 := search.drop lcpLen
      match findChildWithLabel ns cn (search2.headD 0) with
      | some c =>
        -- Go deeper
        insertLoop t method ri fuel ns c search2
      | none =>
        -- Create child node
        let newIdx := ns.length
        let n := newNode t search2 (some ci) [] emptyMethods 0 ri.info.path none none
        let nh :=
          if ri.handler.isSome then
            let nh0 := n.setHandler method (some ri)
            { nh0 with paramsCount := ri.info.params.length }
          else n
        let ns1 := ns ++ [nh]
        let cn1 :=
          if t = staticKind then { cn with staticChildren := cn.staticChildren ++ [newIdx] }
          else if t = paramKind then { cn with paramChild := some newIdx }
          else { cn with anyChild := some newIdx }
        let cn2 := { cn1 with
          isLeaf := cn1.staticChildren.isEmpty && cn1.paramChild.isNone && cn1.anyChild.isNone }
        setN ns1 ci cn2
    else
      -- Node already exists
      if ri.handler.isSome then
        let cnh := cn.setHandler method (some ri)
        let cn1 := { cnh with paramsCount := ri.info.params.length, originalPath := ri.info.path }
        setN ns ci cn1
      else ns

/-- `DefaultRouter.insert`. -/
def insert (r : DefaultRouter) (t : NKind) (path : Str) (method : Str)
    (ri : routeMethod) : DefaultRouter :=
  { r with nodes := insertLoop t method ri (path.length + 2) r.nodes 0 path }

/-- Modelled from the spec: the `Route` value obtained from
`Routable.ToRoute()` (§6 `to_route`), carrying method, path, name and the
(possibly absent) handler.  Middlewares are out of scope (§1), so the field
is omitted and `applyMiddleware` below is the identity. -/
structure Route where
  Method : Str
  Path : Str
  Name : Str
  Handler : Option HandlerFunc
deriving DecidableEq, Repr

/-- Modelled from the spec: `Routable.ToRouteInfo(params)` (§6) produces the
opaque `RouteInfo` exposing the route's method, path, name and the parameter
names the router extracted. -/
def Route.ToRouteInfo (route : Route) (params : List Str) : RouteInfo :=
  { method := route.Method, path := route.Path, name := route.Name, params := params }

/-- Modelled from the spec: middleware composition is an external
collaborator (§1 "explicitly out of scope"), so composing middlewares onto a
handler is the identity here. -/
def applyMiddleware (h : HandlerFunc) : HandlerFunc := h

/-- Error kinds wrapped by `AddRouteError`. -/
inductive addErrKind where
  | missingHandler
  | duplicateRoute
deriving DecidableEq, Repr

/-- `AddRouteError`: wraps the intended method and path with the error. -/
structure AddRouteError where
  Method : Str
  Path : Str
  Err : addErrKind
deriving DecidableEq, Repr

/-- `DefaultRouter.storeRouteInfo`: replace the registry entry with the same
`(method, path)` in place, else append. -/
def storeRouteInfo (r : DefaultRouter) (ri : RouteInfo) : DefaultRouter :=
  match r.routes.findIdx? (fun rr => ri.method == rr.method && ri.path == rr.path) with
  | some i => { r with routes := r.routes.set i ri }
  | none => { r with routes := r.routes ++ [ri] }

/-- Skip from position `i` to the next `'/'` (or the end) — the
`for ; i < lcpIndex && path[i] != '/'; i++` loop in `Add`. -/
def skipToSlash (path : Str) (i : Nat) : Nat :=
  i + ((path.drop i).takeWhile (fun b => !(b == slashByte))).length

/-- One mid-route `routeMethod` (no handler, only the method recorded):
`routeMethod{routeInfo: &routeInfo{method: method}}`. -/
def midRouteMethod (method : Str) : routeMethod :=
  { info := { method := method, path := [], params := [], name := [] },
    handler := none, orgRouteInfo := none }

/-- The scanning loop of `DefaultRouter.Add` (lines 426-468): walks the
normalized path, peeling parameter and catch-all segments, rewriting the
path in place (`path = path[:j] + path[i:]`) and accumulating parameter
names.  Returns the router, the rewritten path, the parameter names, and
the registered `RouteInfo` when the loop itself attached the terminal
(`wasAdded`). -/
def addLoop (route : Route) (method : Str) (h : HandlerFunc) (originalPath : Str) :
    Nat → DefaultRouter → Nat → Str → List Str →
    DefaultRouter × Str × List Str × Option RouteInfo
  | 0, r, _, path, paramNames => (r, path, paramNames, none)
  | Nat.succ fuel, r, i, path, paramNames =>
    if i < path.length then
      let c := path.getD i 0
      if c = paramLabel then
        if decide (0 < i) && (path.getD (i - 1) 0 == backslashByte) then
          addLoop route method h originalPath fuel r (i + 1) path paramNames
        else
          let j := i + 1
          let r1 := insert r staticKind (path.take i) method (midRouteMethod method)
          let i2 := skipToSlash path i
          let paramNames1 := paramNames ++ [(path.drop j).take (i2 - j)]
          let path1 := path.take j ++ path.drop i2
          if j = path1.length then
            -- path node is last fragment of route path. ie. `/users/:id`
            let ri := route.ToRouteInfo paramNames1
            let rm : routeMethod :=
              { info := { method := method, path := originalPath, params := paramNames1,
                          name := route.Name },
                handler := some h, orgRouteInfo := some ri }
            let r2 := insert r1 paramKind (path1.take j) method rm
            (r2, path1, paramNames1, some ri)
          else
            let r2 := insert r1 paramKind (path1.take j) method (midRouteMethod method)
            addLoop route method h originalPath fuel r2 (j + 1) path1 paramNames1
      else if c = anyLabel then
        let r1 := insert r staticKind (path.take i) method (midRouteMethod method)
        let paramNames1 := paramNames ++ [[anyLabel]]
        let ri := route.ToRouteInfo paramNames1
        let rm : routeMethod :=
          { info := { method := method, path := originalPath, params := paramNames1,
                      name := route.Name },
            handler := some h, orgRouteInfo := some ri }
        let r2 := insert r1 anyKind (path.take (i + 1)) method rm
        (r2, path, paramNames1, some ri)
      else
        addLoop route method h originalPath fuel r (i + 1) path paramNames
    else (r, path, paramNames, none)

/-- `DefaultRouter.Add`.  The `Routable` argument is modelled directly as
the `Route` its `ToRoute()` would produce.  On success returns the
registered `RouteInfo` together with the updated router. -/
def Add (r : DefaultRouter) (route : Route) : Except AddRouteError (RouteInfo × DefaultRouter) :=
  match route.Handler with
  | none => Except.error { Method := route.Method, Path := route.Path, Err := .missingHandler }
  | some h0 =>
    let method := route.Method
    let h := applyMiddleware h0
    if !r.allowOverwritingRoute &&
        r.routes.any (fun rr => route.Method == rr.method && route.Path == rr.path) then
      Except.error { Method := route.Method, Path := route.Path, Err := .duplicateRoute }
    else
      let path0 := route.Path
      let path1 := if path0 = [] then [slashByte] else path0
      let path2 := if path1.headD 0 ≠ slashByte then slashByte :: path1 else path1
      let originalPath := path2
      let res := addLoop route method h originalPath (path2.length + 2) r 0 path2 []
      match res.2.2.2 with
      | some ri => Except.ok (ri, storeRouteInfo res.1 ri)
      | none =>
        let paramNames := res.2.2.1
        let ri := route.ToRouteInfo paramNames
        let rm : routeMethod :=
          { info := { method := method, path := originalPath, params := paramNames,
                      name := route.Name },
            handler := some h, orgRouteInfo := some ri }
        let r2 := insert res.1 staticKind res.2.1 method rm
        Except.ok (ri, storeRouteInfo r2 ri)

/-- The three error messages `DefaultRouter.Remove` can produce. -/
inductive RemoveError where
  | noRoutes
  | routeNotFound
  | methodNotFound
deriving DecidableEq, Repr

/-- The descent loop of `Remove` (lines 292-320): follow the pattern's own
bytes (via `':'` / `'*'` / static label) until a handler node whose
`originalPath` equals the normalized path is found. -/
def removeWalk (ns : List node) (path : Str) : Nat → Nat → Nat → Option Nat
  | 0, _, _ => none
  | Nat.succ fuel, ci, prefixLen =>
    let cn := getN ns ci
    if cn.originalPath = path && cn.isHandler then some ci
    else
      let prefixLen1 :=
        if cn.kind = staticKind then prefixLen + cn.pref.length
        else cn.originalPath.length
      if prefixLen1 ≥ path.length then none
      else
        let next := path.getD prefixLen1 0
        let childOpt :=
          if next = paramLabel then cn.paramChild
          else if next = anyLabel then cn.anyChild
          else findStaticChild ns cn next
        match childOpt with
        | some c => removeWalk ns path fuel c prefixLen1
        | none => none

/-- The pruning loop of `Remove` (lines 346-373): detach the now-empty node
from its parent and ascend while the parent becomes leaf and handler-less. -/
def pruneLoop : Nat → List node → Nat → List node
  | 0, ns, _ => ns
  | Nat.succ fuel, ns, ci =>
    let cur := getN ns ci
    match cur.parent with
    | none => ns
    | some pi =>
      let p := getN ns pi
      let p1 :=
        if cur.kind = staticKind then
          let index := (p.staticChildren.findIdx? (fun c => c == ci)).getD 0
          { p with staticChildren := p.staticChildren.eraseIdx index }
        else if cur.kind = paramKind then { p with paramChild := none }
        else { p with anyChild := none }
      let p2 := { p1 with
        isLeaf := p1.anyChild.isNone && p1.paramChild.isNone && p1.staticChildren.isEmpty }
      let ns1 := setN ns pi p2
      if !p2.isLeaf || p2.isHandler then ns1
      else pruneLoop fuel ns1 pi

/-- `DefaultRouter.Remove`.  Returns the error (if any) together with the
resulting router, so that atomicity on failure is a statable property. -/
def Remove (r : DefaultRouter) (method : Str) (path : Str) :
    Option RemoveError × DefaultRouter :=
  if r.nodes.isEmpty then (some .noRoutes, r)
  else
    let root := getN r.nodes 0
    if root.isLeaf && !root.isHandler then (some .noRoutes, r)
    else
      let path1 := if path = [] then [slashByte] else path
      let path2 := if path1.headD 0 ≠ slashByte then slashByte :: path1 else path1
      match removeWalk r.nodes path2 (r.nodes.length + 2) 0 0 with
      | none => (some .routeNotFound, r)
      | some ni =>
        let nd := getN r.nodes ni
        if !nd.isHandler then (some .routeNotFound, r)
        else
          match nd.methods.find method with
          | none => (some .methodNotFound, r)
          | some _ =>
            let nd1 := nd.setHandler method none
            let ns1 := setN r.nodes ni nd1
            let rIndex :=
              (r.routes.findIdx? (fun rr => rr.method == method && rr.path == path2)).getD 0
            let routes1 := r.routes.eraseIdx rIndex
            let ns2 :=
              if !nd1.isHandler && nd1.isLeaf then pruneLoop (ns1.length + 2) ns1 ni
              else ns1
            (none, { r with nodes := ns2, routes := routes1 })

/-- `PathParam`: one `(name, value)` pair of the output vector. -/
structure PathParam where
  Name : Str
  Value : Str
deriving DecidableEq, Repr

/-- The empty `PathParam` (zero value of the Go struct). -/
def emptyParam : PathParam := { Name := [], Value := [] }

/-- A caller-supplied output vector of `n` zero-valued `PathParam`s. -/
def freshParams (n : Nat) : List PathParam := List.replicate n emptyParam

/-- `RouteMatchType`. -/
inductive RouteMatchType where
  | RouteMatchUnknown
  | RouteMatchNotFound
  | RouteMatchMethodNotAllowed
  | RouteMatchFound
deriving DecidableEq, Repr

def NotFoundRouteName : Str := bytes "EchoRouteNotFound"
def MethodNotAllowedRouteName : Str := bytes "EchoRouteMethodNotAllowed"

/-- `notFoundRouteInfo` singleton. -/
def notFoundRouteInfo : routeInfo :=
  { method := [], path := [], params := [], name := NotFoundRouteName }

/-- `methodNotAllowedRouteInfo` singleton. -/
def methodNotAllowedRouteInfo : routeInfo :=
  { method := [], path := [], params := [], name := MethodNotAllowedRouteName }

/-- `notFoundHandler` stock handler. -/
def notFoundHandler : HandlerFunc := .notFoundH

/-- `methodNotAllowedHandler` stock handler. -/
def methodNotAllowedHandler : HandlerFunc := .methodNotAllowedH

/-- `RouteMatch`, the result of `Match`.  Go's `Type` field is a Lean
keyword, so it is rendered as `MatchType`. -/
structure RouteMatch where
  MatchType : RouteMatchType
  RoutePath : Str
  Handler : HandlerFunc
  RouteInfo : routeInfo
deriving DecidableEq, Repr

/-- The parts of `*http.Request` the router reads: the method, the decoded
`URL.Path`, and `URL.RawPath` (non-empty only when the raw form differs
from the decoded one). -/
structure Request where
  Method : Str
  URLPath : Str
  URLRawPath : Str
deriving DecidableEq, Repr

/-- The mutable state of the match loop: current node (`none` models the
Go `nil` pointer after backtracking past the root), the best path match,
the matched method entry, the remaining search string, `searchIndex`,
`paramIndex`, and the caller's output vector. -/
structure LoopState where
  currentNode : Option Nat
  prevBest : Option Nat
  matched : Option routeMethod
  search : Str
  searchIndex : Nat
  paramIndex : Nat
  pathParams : List PathParam
deriving DecidableEq, Repr

/-- `backtrackToNextNodeKind` (lines 740-769): move to the parent, compute
the next node kind by priority, and — unless backtracking from the static
block — rewind `searchIndex`, `paramIndex` and the recorded value. -/
def backtrackStep (ns : List node) (path : Str) (fromKind : NKind) (st : LoopState) :
    NKind × Bool × LoopState :=
  let prevIdx := st.currentNode.getD 0
  let previous := getN ns prevIdx
  let parentOpt := previous.parent
  let valid := parentOpt.isSome
  let nextNodeKind := if previous.kind = anyKind then staticKind else previous.kind + 1
  let st1 := { st with currentNode := parentOpt }
  if fromKind = staticKind then (nextNodeKind, valid, st1)
  else
    let st2 :=
      if previous.kind = staticKind then
        { st1 with searchIndex := st1.searchIndex - previous.pref.length }
      else
        let pIdx := st1.paramIndex - 1
        let pv := (st1.pathParams.getD pIdx emptyParam).Value
        { st1 with
          paramIndex := pIdx,
          searchIndex := st1.searchIndex - pv.length,
          pathParams := st1.pathParams.set pIdx
            { (st1.pathParams.getD pIdx emptyParam) with Value := [] } }
    (nextNodeKind, valid, { st2 with search := path.drop st2.searchIndex })

/-- The three entry points of one iteration of the match loop: the top of
the `for` body, the `Param:` label and the `Any:` label. -/
inductive MPhase where
  | top
  | par
  | anyP
deriving DecidableEq, Repr

/-- The match loop of `DefaultRouter.Match` (lines 778-891), as a state
machine over `MPhase`.  Fuel bounds the number of block executions; the
loop's `break`s return the final state. -/
def matchLoop (ns : List node) (path : Str) (method : Str) :
    Nat → MPhase → LoopState → LoopState
  | 0, _, st => st
  | Nat.succ fuel, ph, st =>
    match st.currentNode with
    | none => st
    | some ci =>
      let cn := getN ns ci
      match ph with
      | .top =>
        let prefixLen := if cn.kind = staticKind then cn.pref.length else 0
        let lcpLen := if cn.kind = staticKind then lcpOf st.search cn.pref else 0
        if lcpLen ≠ prefixLen then
          -- No matching prefix: backtrack from the static block
          let r := backtrackStep ns path staticKind st
          if !r.2.1 then r.2.2
          else if r.1 = paramKind then matchLoop ns path method fuel .par r.2.2
          else r.2.2
        else
          let st1 := { st with
            search := st.search.drop lcpLen, searchIndex := st.searchIndex + lcpLen }
          let isCand := st1.search.isEmpty && cn.isHandler
          let st2 :=
            if isCand && st1.prevBest.isNone then { st1 with prevBest := some ci } else st1
          match (if isCand then cn.methods.find method else none) with
          | some rm => { st2 with matched := some rm }
          | none =>
            match (if st2.search.isEmpty then none
                   else findStaticChild ns cn (st2.search.headD 0)) with
            | some child => matchLoop ns path method fuel .top { st2 with currentNode := some child }
            | none => matchLoop ns path method fuel .par st2
      | .par =>
        match (if st.search.isEmpty then none else cn.paramChild) with
        | some child =>
          let cnode := getN ns child
          let l := st.search.length
          let i := if cnode.isLeaf then l
            else (st.search.takeWhile (fun b => !(b == slashByte))).length
          let pp := st.pathParams.set st.paramIndex
            { (st.pathParams.getD st.paramIndex emptyParam) with Value := st.search.take i }
          let st1 := { st with
            currentNode := some child, pathParams := pp, paramIndex := st.paramIndex + 1,
            search := st.search.drop i, searchIndex := st.searchIndex + i }
          matchLoop ns path method fuel .top st1
        | none => matchLoop ns path method fuel .anyP st
      | .anyP =>
        match cn.anyChild with
        | some child =>
          let cnode := getN ns child
          let pp := st.pathParams.set (cnode.paramsCount - 1)
            { (st.pathParams.getD (cnode.paramsCount - 1) emptyParam) with Value := st.search }
          let st1 := { st with
            currentNode := some child, pathParams := pp, paramIndex := st.paramIndex + 1,
            searchIndex := st.searchIndex + st.search.length, search := [] }
          let st2 := if st1.prevBest.isNone then { st1 with prevBest := some child } else st1
          match cnode.methods.find method with
          | some rm => { st2 with matched := some rm }
          | none =>
            let r := backtrackStep ns path anyKind st2
            if !r.2.1 then r.2.2
            else if r.1 = paramKind then matchLoop ns path method fuel .par r.2.2
            else if r.1 = anyKind then matchLoop ns path method fuel .anyP r.2.2
            else r.2.2
        | none =>
          let r := backtrackStep ns path anyKind st
          if !r.2.1 then r.2.2
          else if r.1 = paramKind then matchLoop ns path method fuel .par r.2.2
          else if r.1 = anyKind then matchLoop ns path method fuel .anyP r.2.2
          else r.2.2

/-- `ishex` from `net/url`. -/
def ishex (c : Nat) : Bool :=
  (48 ≤ c && c ≤ 57) || (97 ≤ c && c ≤ 102) || (65 ≤ c && c ≤ 70)

/-- `unhex` from `net/url`. -/
def unhex (c : Nat) : Nat :=
  if 48 ≤ c && c ≤ 57 then c - 48
  else if 97 ≤ c && c ≤ 102 then c - 87
  else if 65 ≤ c && c ≤ 70 then c - 55
  else 0

/-- `url.PathUnescape` (Go standard library, mode `encodePathSegment`):
every `%` must be followed by two hex digits, in which case it decodes to
the corresponding byte; any malformed escape is an error (`none`).  `'+'`
is kept verbatim in path mode. -/
def pathUnescape : Str → Option Str
  | [] => some []
  | c :: rest =>
    if c = percentByte then
      match rest with
      | a :: b :: rest2 =>
        if ishex a && ishex b then
          (pathUnescape rest2).map (fun t => (unhex a * 16 + unhex b) :: t)
        else none
      | _ => none
    else (pathUnescape rest).map (fun t => c :: t)

/-- The post-match name assignment loop
(`for i, name := range matchedRouteMethod.params`). -/
def setNames : List PathParam → List Str → List PathParam
  | ps, [] => ps
  | [], _ :: _ => []
  | p :: ps, n :: nms => { p with Name := n } :: setNames ps nms

/-- The post-match unescape loop (lines 931-939): percent-decode each value,
ignoring failures. -/
def unescapeParams (ps : List PathParam) : List PathParam :=
  ps.map (fun p =>
    match pathUnescape p.Value with
    | some v => { p with Value := v }
    | none => p)

/-- The result assembly of `Match` (lines 893-941). -/
def matchAssemble (r : DefaultRouter) (st : LoopState) : RouteMatch × List PathParam :=
  let notFoundResult : RouteMatch :=
    { MatchType := .RouteMatchNotFound, RoutePath := [], Handler := notFoundHandler,
      RouteInfo := notFoundRouteInfo }
  if st.currentNode.isNone && st.prevBest.isNone then (notFoundResult, [])
  else
    match st.matched with
    | some rm =>
      let fn := getN r.nodes (st.currentNode.getD 0)
      let result : RouteMatch :=
        { MatchType := .RouteMatchFound, RoutePath := rm.info.path,
          Handler := rm.handler.getD notFoundHandler, RouteInfo := rm.info }
      let pp1 := st.pathParams.take fn.paramsCount
      let pp2 := setNames pp1 rm.info.params
      let pp3 :=
        if r.unescapePathParamValues && !(fn.kind == staticKind) then
          unescapeParams pp2
        else pp2
      (result, pp3)
    | none =>
      match st.prevBest with
      | none => (notFoundResult, [])
      | some pb =>
        let fn := getN r.nodes pb
        let result : RouteMatch :=
          if fn.isHandler then
            { MatchType := .RouteMatchMethodNotAllowed, RoutePath := fn.originalPath,
              Handler := methodNotAllowedHandler, RouteInfo := methodNotAllowedRouteInfo }
          else { notFoundResult with RoutePath := fn.originalPath }
        let pp1 := st.pathParams.take fn.paramsCount
        let pp2 :=
          if r.unescapePathParamValues && !(fn.kind == staticKind) then
            unescapeParams pp1
          else pp1
        (result, pp2)

/-- `DefaultRouter.Match`.  Returns the `RouteMatch` together with the final
contents of the caller's output vector.  Note the path selection on entry
(lines 717-723): the raw `URL.RawPath` is used when it is non-empty and
`useEscapedPathForRouting` is FALSE — the negation as written in the
source. -/
def Match (r : DefaultRouter) (req : Request) (pathParams : List PathParam) :
    RouteMatch × List PathParam :=
  let path :=
    if !r.useEscapedPathForRouting && !req.URLRawPath.isEmpty then req.URLRawPath
    else req.URLPath
  let st0 : LoopState :=
    { currentNode := some 0, prevBest := none, matched := none,
      search := path, searchIndex := 0, paramIndex := 0, pathParams := pathParams }
  let fuel := path.length + (r.nodes.length + 2) * 8
  matchAssemble r (matchLoop r.nodes path req.Method fuel .top st0)

/-! ### Concrete routers used by the theorems -/

/-- Register a route, keeping the router unchanged if `Add` fails (the
theorems below check separately that the involved registrations succeed). -/
def addOk (r : DefaultRouter) (route : Route) : DefaultRouter :=
  match Add r route with
  | Except.ok res => res.2
  | Except.error _ => r

/-- A route with a numbered user handler and no name. -/
def mkRoute (method : Str) (path : String) (id : Nat) : Route :=
  { Method := method, Path := bytes path, Name := [], Handler := some (.user id) }

/-- All flags off. -/
def cfgOff : RouterConfig :=
  { AllowOverwritingRoute := false, UnescapePathParamValues := false,
    UseEscapedPathForMatching := false }

/-- A GET request with no distinct raw path. -/
def getReq (path : String) : Request :=
  { Method := MethodGet, URLPath := bytes path, URLRawPath := [] }

/-- Router with only `GET /café` registered, default flags. -/
def cafeRouter : DefaultRouter := addOk (NewRouter cfgOff) (mkRoute MethodGet "/café" 1)

/-- Router with only `GET /café` registered and
`UseEscapedPathForMatching = true`. -/
def cafeRouterEsc : DefaultRouter :=
  addOk (NewRouter { cfgOff with UseEscapedPathForMatching := true })
    (mkRoute MethodGet "/café" 1)

/-- A request whose on-the-wire path is `/caf%C3%A9`: Go's HTTP layer stores
the decoded form in `URL.Path` and the distinct raw form in `URL.RawPath`. -/
def cafeReq : Request :=
  { Method := MethodGet, URLPath := bytes "/café", URLRawPath := bytes "/caf%C3%A9" }

/-- Router with only `GET /users/:id` registered. -/
def usersIdRouter : DefaultRouter := addOk (NewRouter cfgOff) (mkRoute MethodGet "/users/:id" 1)

/-- Router with `GET /users/:id` and `GET /users/me` registered. -/
def usersBothRouter : DefaultRouter :=
  addOk (addOk (NewRouter cfgOff) (mkRoute MethodGet "/users/:id" 1))
    (mkRoute MethodGet "/users/me" 2)

/-- Router with `GET /files/:x` and `GET /files/*` registered. -/
def filesBothRouter : DefaultRouter :=
  addOk (addOk (NewRouter cfgOff) (mkRoute MethodGet "/files/:x" 1))
    (mkRoute MethodGet "/files/*" 2)

/-- Router with only `POST /users` registered. -/
def postUsersRouter : DefaultRouter :=
  addOk (NewRouter cfgOff)
    { Method := MethodPost, Path := bytes "/users", Name := [], Handler := some (.user 1) }

/-- Router with only `GET /users` (handler 1) registered, overwriting
disabled. -/
def dupBaseRouter : DefaultRouter := addOk (NewRouter cfgOff) (mkRoute MethodGet "/users" 1)

/-- Router with only `GET /users` (handler 1) registered, overwriting
enabled. -/
def owBaseRouter : DefaultRouter :=
  addOk (NewRouter { cfgOff with AllowOverwritingRoute := true })
    (mkRoute MethodGet "/users" 1)

/-- A second registration of `GET /users` with a different name and
handler, used to observe in-place replacement. -/
def secondUsersRoute : Route :=
  { Method := MethodGet, Path := bytes "/users", Name := bytes "second",
    Handler := some (.user 2) }

/-- Router with only `GET /a/:x` registered. -/
def axRouter : DefaultRouter := addOk (NewRouter cfgOff) (mkRoute MethodGet "/a/:x" 1)

/-- `axRouter` after `Remove(GET, /a/:x)`. -/
def axRemoved : DefaultRouter := (Remove axRouter MethodGet (bytes "/a/:x")).2

/-- Router with only `GET /files/*` registered. -/
def filesStarRouter : DefaultRouter := addOk (NewRouter cfgOff) (mkRoute MethodGet "/files/*" 1)

/-- Router with `GET /a/:x/b` and `GET /a/:x/:y` registered. -/
def axbBothRouter : DefaultRouter :=
  addOk (addOk (NewRouter cfgOff) (mkRoute MethodGet "/a/:x/b" 1))
    (mkRoute MethodGet "/a/:x/:y" 2)

/-- Router with only `GET /a/:x/b` registered. -/
def axbRouter : DefaultRouter := addOk (NewRouter cfgOff) (mkRoute MethodGet "/a/:x/b" 3)

/-- Flags with only `UnescapePathParamValues = true`. -/
def cfgUnescape : RouterConfig := { cfgOff with UnescapePathParamValues := true }

/-- Router with only `GET /:p` registered and `UnescapePathParamValues`. -/
def pRouter : DefaultRouter := addOk (NewRouter cfgUnescape) (mkRoute MethodGet "/:p" 1)

/-- Router with only `GET /a/:x/b` registered and
`UnescapePathParamValues`. -/
def axbUnescapeRouter : DefaultRouter :=
  addOk (NewRouter cfgUnescape) (mkRoute MethodGet "/a/:x/b" 1)

/-- Router with only `GET /a/:x/:y` registered (a pattern with a segment
after a parameter). -/
def axyRouter : DefaultRouter := addOk (NewRouter cfgOff) (mkRoute MethodGet "/a/:x/:y" 1)

/-- A `routeMethod` carrying a numbered user handler, as `Add` stores it. -/
def userRM (method path : Str) (params : List Str) (id : Nat) : routeMethod :=
  { info := { method := method, path := path, params := params, name := [] },
    handler := some (.user id),
    orgRouteInfo := some { method := method, path := path, name := [], params := params } }

/-- A method table with only a GET entry. -/
def getOnly (rm : routeMethod) : routeMethods := { emptyMethods with get := some rm }

/-- A method table with only a POST entry. -/
def postOnly (rm : routeMethod) : routeMethods := { emptyMethods with post := some rm }

/-- The arena `usersIdRouter` evaluates to (checked by `usersId_eq`). -/
def usersIdLit : DefaultRouter :=
  { nodes := [
      { kind := staticKind, label := 47, pref := bytes "/users/", parent := none,
        staticChildren := [], originalPath := [], methods := emptyMethods,
        paramChild := some 1, anyChild := none, paramsCount := 0,
        isLeaf := false, isHandler := false },
      { kind := paramKind, label := 58, pref := [58], parent := some 0,
        staticChildren := [], originalPath := bytes "/users/:id",
        methods := getOnly (userRM MethodGet (bytes "/users/:id") [bytes "id"] 1),
        paramChild := none, anyChild := none, paramsCount := 1,
        isLeaf := true, isHandler := true }],
    routes := [{ method := MethodGet, path := bytes "/users/:id", name := [],
                 params := [bytes "id"] }],
    allowOverwritingRoute := false, unescapePathParamValues := false,
    useEscapedPathForRouting := false }

/-- The arena `usersBothRouter` evaluates to (checked by `usersBoth_eq`). -/
def usersBothLit : DefaultRouter :=
  { nodes := [
      { kind := staticKind, label := 47, pref := bytes "/users/", parent := none,
        staticChildren := [2], originalPath := [], methods := emptyMethods,
        paramChild := some 1, anyChild := none, paramsCount := 0,
        isLeaf := false, isHandler := false },
      { kind := paramKind, label := 58, pref := [58], parent := some 0,
        staticChildren := [], originalPath := bytes "/users/:id",
        methods := getOnly (userRM MethodGet (bytes "/users/:id") [bytes "id"] 1),
        paramChild := none, anyChild := none, paramsCount := 1,
        isLeaf := true, isHandler := true },
      { kind := staticKind, label := 109, pref := bytes "me", parent := some 0,
        staticChildren := [], originalPath := bytes "/users/me",
        methods := getOnly (userRM MethodGet (bytes "/users/me") [] 2),
        paramChild := none, anyChild := none, paramsCount := 0,
        isLeaf := true, isHandler := true }],
    routes := [{ method := MethodGet, path := bytes "/users/:id", name := [],
                 params := [bytes "id"] },
               { method := MethodGet, path := bytes "/users/me", name := [], params := [] }],
    allowOverwritingRoute := false, unescapePathParamValues := false,
    useEscapedPathForRouting := false }

/-- The arena `filesBothRouter` evaluates to (checked by `filesBoth_eq`). -/
def filesBothLit : DefaultRouter :=
  { nodes := [
      { kind := staticKind, label := 47, pref := bytes "/files/", parent := none,
        staticChildren := [], originalPath := [], methods := emptyMethods,
        paramChild := some 1, anyChild := some 2, paramsCount := 0,
        isLeaf := false, isHandler := false },
      { kind := paramKind, label := 58, pref := [58], parent := some 0,
        staticChildren := [], originalPath := bytes "/files/:x",
        methods := getOnly (userRM MethodGet (bytes "/files/:x") [bytes "x"] 1),
        paramChild := none, anyChild := none, paramsCount := 1,
        isLeaf := true, isHandler := true },
      { kind := anyKind, label := 42, pref := [42], parent := some 0,
        staticChildren := [], originalPath := bytes "/files/*",
        methods := getOnly (userRM MethodGet (bytes "/files/*") [[42]] 2),
        paramChild := none, anyChild := none, paramsCount := 1,
        isLeaf := true, isHandler := true }],
    routes := [{ method := MethodGet, path := bytes "/files/:x", name := [],
                 params := [bytes "x"] },
               { method := MethodGet, path := bytes "/files/*", name := [], params := [[42]] }],
    allowOverwritingRoute := false, unescapePathParamValues := false,
    useEscapedPathForRouting := false }

/-- The arena `filesStarRouter` evaluates to (checked by `filesStar_eq`). -/
def filesStarLit : DefaultRouter :=
  { nodes := [
      { kind := staticKind, label := 47, pref := bytes "/files/", parent := none,
        staticChildren := [], originalPath := [], methods := emptyMethods,
        paramChild := none, anyChild := some 1, paramsCount := 0,
        isLeaf := false, isHandler := false },
      { kind := anyKind, label := 42, pref := [42], parent := some 0,
        staticChildren := [], originalPath := bytes "/files/*",
        methods := getOnly (userRM MethodGet (bytes "/files/*") [[42]] 1),
        paramChild := none, anyChild := none, paramsCount := 1,
        isLeaf := true, isHandler := true }],
    routes := [{ method := MethodGet, path := bytes "/files/*", name := [], params := [[42]] }],
    allowOverwritingRoute := false, unescapePathParamValues := false,
    useEscapedPathForRouting := false }

/-- The arena `postUsersRouter` evaluates to (checked by `postUsers_eq`). -/
def postUsersLit : DefaultRouter :=
  { nodes := [
      { kind := staticKind, label := 47, pref := bytes "/users", parent := none,
        staticChildren := [], originalPath := bytes "/users",
        methods := postOnly (userRM MethodPost (bytes "/users") [] 1),
        paramChild := none, anyChild := none, paramsCount := 0,
        isLeaf := true, isHandler := true }],
    routes := [{ method := MethodPost, path := bytes "/users", name := [], params := [] }],
    allowOverwritingRoute := false, unescapePathParamValues := false,
    useEscapedPathForRouting := false }

/-- The arena `pRouter` evaluates to (checked by `pRouter_eq`). -/
def pLit : DefaultRouter :=
  { nodes := [
      { kind := staticKind, label := 47, pref := [47], parent := none,
        staticChildren := [], originalPath := [], methods := emptyMethods,
        paramChild := some 1, anyChild := none, paramsCount := 0,
        isLeaf := false, isHandler := false },
      { kind := paramKind, label := 58, pref := [58], parent := some 0,
        staticChildren := [], originalPath := bytes "/:p",
        methods := getOnly (userRM MethodGet (bytes "/:p") [bytes "p"] 1),
        paramChild := none, anyChild := none, paramsCount := 1,
        isLeaf := true, isHandler := true }],
    routes := [{ method := MethodGet, path := bytes "/:p", name := [], params := [bytes "p"] }],
    allowOverwritingRoute := false, unescapePathParamValues := true,
    useEscapedPathForRouting := false }

/-- The literal value of `axRemoved` (established by `axRemoved_eq`): the
pruned tree keeps only the root `/a/` static node with no children and no
handler; the arena still holds the detached record of the removed param
node at index 1, unreachable from the root. -/
def axRemovedLit : DefaultRouter :=
  { nodes := [
      { kind := staticKind, label := 47, pref := [47, 97, 47], parent := none,
        staticChildren := [], originalPath := [], methods := emptyMethods,
        paramChild := none, anyChild := none, paramsCount := 0,
        isLeaf := true, isHandler := false },
      { kind := paramKind, label := 58, pref := [58], parent := some 0,
        staticChildren := [], originalPath := [47, 97, 47, 58, 120],
        methods := emptyMethods, paramChild := none, anyChild := none,
        paramsCount := 1, isLeaf := true, isHandler := false }],
    routes := [],
    allowOverwritingRoute := false, unescapePathParamValues := false,
    useEscapedPathForRouting := false }

/-- The root node of `axRemovedLit`. -/
def axRootLit : node :=
  { kind := staticKind, label := 47, pref := [47, 97, 47], parent := none,
    staticChildren := [], originalPath := [], methods := emptyMethods,
    paramChild := none, anyChild := none, paramsCount := 0,
    isLeaf := true, isHandler := false }

end Echo

/-! ### Claims -/

deriving instance DecidableEq for Except

open Echo

/-! #### List facts used by the step lemmas -/

/-- The LCP of `q ++ v` with `q` is all of `q`. -/
theorem lcpOf_append_self : ∀ (q v : Str), lcpOf (q ++ v) q = q.length := by
  intro q v
  induction q with
  | nil => cases v <;> simp [lcpOf]
  | cons a q ih => simp [lcpOf, ih]

/-- A full-prefix LCP decomposes the search string. -/
theorem lcpOf_full_imp : ∀ (q p : Str), lcpOf p q = q.length → p = q ++ p.drop q.length := by
  intro q
  induction q with
  | nil => intro p _; simp
  | cons b q ih =>
    intro p h
    cases p with
    | nil => simp [lcpOf] at h
    | cons a p =>
      simp only [lcpOf, List.length_cons] at h
      by_cases hab : a = b
      · simp [hab] at h
        have h2 := ih p (by omega)
        simp only [List.length_cons, List.drop_succ_cons]
        rw [hab, List.cons_append]
        exact congrArg (b :: ·) h2
      · simp [hab] at h

/-- Taking as many elements as `takeWhile p` keeps yields `takeWhile p`. -/
theorem take_len_takeWhile (p : Nat → Bool) :
    ∀ l : Str, l.take (l.takeWhile p).length = l.takeWhile p := by
  intro l
  induction l with
  | nil => rfl
  | cons a l ih =>
    by_cases h : p a <;> simp [List.takeWhile_cons, h, ih]

/-- Dropping as many elements as `takeWhile p` keeps yields `dropWhile p`. -/
theorem drop_len_takeWhile (p : Nat → Bool) :
    ∀ l : Str, l.drop (l.takeWhile p).length = l.dropWhile p := by
  intro l
  induction l with
  | nil => rfl
  | cons a l ih =>
    by_cases h : p a <;> simp [List.takeWhile_cons, List.dropWhile_cons, h, ih]

/-! #### Step equations for the match loop

Each lemma characterizes one block transition of `matchLoop`, universally
over the arena, the remaining search string and the loop state, mirroring
the corresponding lines of `Match` in `src/router.go`. -/

/-- Unfolding `Match` when the request carries no distinct raw path. -/
theorem Match_unfold (r : DefaultRouter) (req : Request) (ps : List PathParam)
    (hraw : req.URLRawPath = []) :
    Match r req ps =
      matchAssemble r (matchLoop r.nodes req.URLPath req.Method
        (req.URLPath.length + (r.nodes.length + 2) * 8) .top
        { currentNode := some 0, prevBest := none, matched := none,
          search := req.URLPath, searchIndex := 0, paramIndex := 0, pathParams := ps }) := by
  simp [Match, hraw]

/-- Static node, full prefix match, search exhausted, handler present with a
matching method entry: the loop terminates with that entry (lines 816-826). -/
theorem step_top_static_found (ns : List node) (path method : Str) (fuel : Nat)
    (st : LoopState) (ci : Nat) (q : Str) (rm : routeMethod)
    (hc : st.currentNode = some ci) (hk : (getN ns ci).kind = staticKind)
    (hq : (getN ns ci).pref = q) (hL : lcpOf st.search q = q.length)
    (he : st.search.drop q.length = []) (hh : (getN ns ci).isHandler = true)
    (hf : (getN ns ci).methods.find method = some rm) :
    matchLoop ns path method (fuel + 1) .top st =
      { st with
        search := [], searchIndex := st.searchIndex + q.length,
        prevBest := if st.prevBest.isNone then some ci else st.prevBest,
        matched := some rm } := by
  simp only [matchLoop, hc, hk, hq, hL, he, hh, hf]
  by_cases hb : st.prevBest.isNone <;> simp [hb, he]

/-- Static node, full prefix match, search remains, a static child carries
its first byte: descend (lines 829-834). -/
theorem step_top_static_desc (ns : List node) (path method : Str) (fuel : Nat)
    (st : LoopState) (ci child : Nat) (q : Str)
    (hc : st.currentNode = some ci) (hk : (getN ns ci).kind = staticKind)
    (hq : (getN ns ci).pref = q) (hL : lcpOf st.search q = q.length)
    (hne : st.search.drop q.length ≠ [])
    (hchild : findStaticChild ns (getN ns ci) ((st.search.drop q.length).headD 0) = some child) :
    matchLoop ns path method (fuel + 1) .top st =
      matchLoop ns path method fuel .top
        { st with
          currentNode := some child, search := st.search.drop q.length,
          searchIndex := st.searchIndex + q.length } := by
  have hie : (st.search.drop q.length).isEmpty = false := by
    cases h2 : st.search.drop q.length with
    | nil => exact absurd h2 hne
    | cons a l => rfl
  have hlen : ¬ st.search.length ≤ q.length := by
    intro hle
    exact hne (List.drop_eq_nil_of_le hle)
  have hchild2 : findStaticChild ns (getN ns ci) (st.search[q.length]?.getD 0) = some child := by
    simpa using hchild
  simp only [matchLoop, hc, hk, hq, hL, hie]
  simp [hlen, hchild2]

/-- Static node, full prefix match, search remains, no static child for its
first byte: fall through to the Param block (lines 836-837). -/
theorem step_top_static_topar (ns : List node) (path method : Str) (fuel : Nat)
    (st : LoopState) (ci : Nat) (q : Str)
    (hc : st.currentNode = some ci) (hk : (getN ns ci).kind = staticKind)
    (hq : (getN ns ci).pref = q) (hL : lcpOf st.search q = q.length)
    (hne : st.search.drop q.length ≠ [])
    (hchild : findStaticChild ns (getN ns ci) ((st.search.drop q.length).headD 0) = none) :
    matchLoop ns path method (fuel + 1) .top st =
      matchLoop ns path method fuel .par
        { st with
          search := st.search.drop q.length,
          searchIndex := st.searchIndex + q.length } := by
  have hie : (st.search.drop q.length).isEmpty = false := by
    cases h2 : st.search.drop q.length with
    | nil => exact absurd h2 hne
    | cons a l => rfl
  have hlen : ¬ st.search.length ≤ q.length := by
    intro hle
    exact hne (List.drop_eq_nil_of_le hle)
  have hchild2 : findStaticChild ns (getN ns ci) (st.search[q.length]?.getD 0) = none := by
    simpa using hchild
  simp only [matchLoop, hc, hk, hq, hL, hie]
  simp [hlen, hchild2]

/-- Static node, full prefix match, search exhausted, handler present but no
entry for the method: record the best path match and fall through
(lines 816-826 then 836). -/
theorem step_top_static_cand_topar (ns : List node) (path method : Str) (fuel : Nat)
    (st : LoopState) (ci : Nat) (q : Str)
    (hc : st.currentNode = some ci) (hk : (getN ns ci).kind = staticKind)
    (hq : (getN ns ci).pref = q) (hL : lcpOf st.search q = q.length)
    (he : st.search.drop q.length = []) (hh : (getN ns ci).isHandler = true)
    (hf : (getN ns ci).methods.find method = none) :
    matchLoop ns path method (fuel + 1) .top st =
      matchLoop ns path method fuel .par
        { st with
          search := [], searchIndex := st.searchIndex + q.length,
          prevBest := if st.prevBest.isNone then some ci else st.prevBest } := by
  simp only [matchLoop, hc, hk, hq, hL, he, hh, hf]
  by_cases hb : st.prevBest.isNone <;> simp [hb, he]

/-- Static node, full prefix match, search exhausted, no handler: fall
through to the Param block. -/
theorem step_top_static_empty_nohandler (ns : List node) (path method : Str) (fuel : Nat)
    (st : LoopState) (ci : Nat) (q : Str)
    (hc : st.currentNode = some ci) (hk : (getN ns ci).kind = staticKind)
    (hq : (getN ns ci).pref = q) (hL : lcpOf st.search q = q.length)
    (he : st.search.drop q.length = []) (hh : (getN ns ci).isHandler = false) :
    matchLoop ns path method (fuel + 1) .top st =
      matchLoop ns path method fuel .par
        { st with
          search := [], searchIndex := st.searchIndex + q.length } := by
  simp only [matchLoop, hc, hk, hq, hL, he, hh]
  simp [he]

/-- Static node with a prefix mismatch and a parent: backtrack from the
static block to the parent's Param alternative (lines 795-808). -/
theorem step_top_static_mismatch_parent (ns : List node) (path method : Str) (fuel : Nat)
    (st : LoopState) (ci pi : Nat)
    (hc : st.currentNode = some ci) (hk : (getN ns ci).kind = staticKind)
    (hL : lcpOf st.search (getN ns ci).pref ≠ (getN ns ci).pref.length)
    (hpar : (getN ns ci).parent = some pi) :
    matchLoop ns path method (fuel + 1) .top st =
      matchLoop ns path method fuel .par { st with currentNode := some pi } := by
  simp only [matchLoop, hc]
  simp [backtrackStep, hc, hk, hpar, hL, staticKind, paramKind, anyKind]

/-- Static node with a prefix mismatch at the root: the loop breaks with a
nil current node. -/
theorem step_top_static_mismatch_noparent (ns : List node) (path method : Str) (fuel : Nat)
    (st : LoopState) (ci : Nat)
    (hc : st.currentNode = some ci) (hk : (getN ns ci).kind = staticKind)
    (hL : lcpOf st.search (getN ns ci).pref ≠ (getN ns ci).pref.length)
    (hpar : (getN ns ci).parent = none) :
    matchLoop ns path method (fuel + 1) .top st = { st with currentNode := none } := by
  simp only [matchLoop, hc]
  simp [backtrackStep, hc, hk, hpar, hL, staticKind, paramKind, anyKind]

/-- Param node re-entering the loop top with exhausted search, handler and a
matching method entry: terminate with that entry. -/
theorem step_top_param_found (ns : List node) (path method : Str) (fuel : Nat)
    (st : LoopState) (ci : Nat) (rm : routeMethod)
    (hc : st.currentNode = some ci) (hk : (getN ns ci).kind = paramKind)
    (he : st.search = []) (hh : (getN ns ci).isHandler = true)
    (hf : (getN ns ci).methods.find method = some rm) :
    matchLoop ns path method (fuel + 1) .top st =
      { st with
        prevBest := if st.prevBest.isNone then some ci else st.prevBest,
        matched := some rm } := by
  simp only [matchLoop, hc, hk, he, hh, hf]
  by_cases hb : st.prevBest.isNone <;> simp [hb, staticKind, paramKind]

/-- The Param block with a param child and a non-empty search: record the
consumed slice and descend (lines 836-855). -/
theorem step_par_desc (ns : List node) (path method : Str) (fuel : Nat)
    (st : LoopState) (ci child : Nat)
    (hc : st.currentNode = some ci) (hs : st.search ≠ [])
    (hp : (getN ns ci).paramChild = some child) :
    matchLoop ns path method (fuel + 1) .par st =
      matchLoop ns path method fuel .top
        { st with
          currentNode := some child,
          pathParams := st.pathParams.set st.paramIndex
            { st.pathParams.getD st.paramIndex emptyParam with
              Value := st.search.take (if (getN ns child).isLeaf then st.search.length
                else (st.search.takeWhile (fun b => !(b == slashByte))).length) },
          paramIndex := st.paramIndex + 1,
          search := st.search.drop (if (getN ns child).isLeaf then st.search.length
            else (st.search.takeWhile (fun b => !(b == slashByte))).length),
          searchIndex := st.searchIndex + (if (getN ns child).isLeaf then st.search.length
            else (st.search.takeWhile (fun b => !(b == slashByte))).length) } := by
  have hie : st.search.isEmpty = false := by
    cases h2 : st.search with
    | nil => exact absurd h2 hs
    | cons a l => rfl
  simp only [matchLoop, hc, hie, hp]
  by_cases hl : (getN ns child).isLeaf <;> simp [hl]

/-- The Param block without a usable param child: fall through to the Any
block (line 838 guard failing). -/
theorem step_par_toany (ns : List node) (path method : Str) (fuel : Nat)
    (st : LoopState) (ci : Nat) (hc : st.currentNode = some ci)
    (hcond : st.search = [] ∨ (getN ns ci).paramChild = none) :
    matchLoop ns path method (fuel + 1) .par st =
      matchLoop ns path method fuel .anyP st := by
  rcases hcond with h | h
  · simp [matchLoop, hc, h]
  · simp only [matchLoop, hc, h]
    simp

/-- The Any block with a catch-all child whose method table has an entry for
the request method: record the remainder and terminate (lines 857-876). -/
theorem step_any_found (ns : List node) (path method : Str) (fuel : Nat)
    (st : LoopState) (ci child : Nat) (rm : routeMethod)
    (hc : st.currentNode = some ci) (ha : (getN ns ci).anyChild = some child)
    (hf : (getN ns child).methods.find method = some rm) :
    matchLoop ns path method (fuel + 1) .anyP st =
      { st with
        currentNode := some child,
        prevBest := if st.prevBest.isNone then some child else st.prevBest,
        matched := some rm,
        search := [], searchIndex := st.searchIndex + st.search.length,
        paramIndex := st.paramIndex + 1,
        pathParams := st.pathParams.set ((getN ns child).paramsCount - 1)
          { st.pathParams.getD ((getN ns child).paramsCount - 1) emptyParam with
            Value := st.search } } := by
  simp only [matchLoop, hc, ha, hf]
  by_cases hb : st.prevBest.isNone <;> simp [hb]

/-- The Any block with no catch-all child, at a static node with a parent:
backtrack (restoring the consumed prefix) to the parent's Param
alternative (lines 879-890). -/
theorem step_any_backtrack_parent (ns : List node) (path method : Str) (fuel : Nat)
    (st : LoopState) (ci pi : Nat) (q : Str)
    (hc : st.currentNode = some ci) (ha : (getN ns ci).anyChild = none)
    (hk : (getN ns ci).kind = staticKind) (hq : (getN ns ci).pref = q)
    (hpar : (getN ns ci).parent = some pi) :
    matchLoop ns path method (fuel + 1) .anyP st =
      matchLoop ns path method fuel .par
        { st with
          currentNode := some pi,
          searchIndex := st.searchIndex - q.length,
          search := path.drop (st.searchIndex - q.length) } := by
  simp only [matchLoop, hc, ha]
  simp [backtrackStep, hc, hk, hq, hpar, staticKind, paramKind, anyKind]

/-- The Any block with no catch-all child at the static root: the loop
breaks with a nil current node (after restoring the consumed prefix). -/
theorem step_any_backtrack_noparent (ns : List node) (path method : Str) (fuel : Nat)
    (st : LoopState) (ci : Nat) (q : Str)
    (hc : st.currentNode = some ci) (ha : (getN ns ci).anyChild = none)
    (hk : (getN ns ci).kind = staticKind) (hq : (getN ns ci).pref = q)
    (hpar : (getN ns ci).parent = none) :
    matchLoop ns path method (fuel + 1) .anyP st =
      { st with
        currentNode := none,
        searchIndex := st.searchIndex - q.length,
        search := path.drop (st.searchIndex - q.length) } := by
  simp only [matchLoop, hc, ha]
  simp [backtrackStep, hc, hk, hq, hpar, staticKind, paramKind, anyKind]

/-! #### Router evaluations, registry lemmas and loop lemmas -/

theorem usersId_eq : usersIdRouter = usersIdLit := by decide

theorem usersBoth_eq : usersBothRouter = usersBothLit := by decide

theorem filesBoth_eq : filesBothRouter = filesBothLit := by decide

theorem filesStar_eq : filesStarRouter = filesStarLit := by decide

theorem postUsers_eq : postUsersRouter = postUsersLit := by decide

theorem pRouter_eq : pRouter = pLit := by decide

theorem axRemoved_eq : axRemoved = axRemovedLit := by decide

/-- `insert` never touches the routes registry. -/
theorem insert_routes (r : DefaultRouter) (t : NKind) (path method : Str) (ri : routeMethod) :
    (insert r t path method ri).routes = r.routes := rfl

/-- The scanning loop of `Add` never touches the routes registry (only
`storeRouteInfo` does, afterwards). -/
theorem addLoop_routes (route : Route) (method : Str) (h : HandlerFunc) (originalPath : Str) :
    ∀ (fuel : Nat) (r : DefaultRouter) (i : Nat) (path : Str) (pn : List Str),
      (addLoop route method h originalPath fuel r i path pn).1.routes = r.routes := by
  intro fuel
  induction fuel with
  | zero => intro r i path pn; rfl
  | succ n ih =>
    intro r i path pn
    simp only [addLoop]
    repeat' split
    all_goals simp [insert_routes, ih]

/-- When the scanning loop of `Add` itself registers the terminal node, the
returned `RouteInfo` carries the route's method and raw path. -/
theorem addLoop_some_shape (route : Route) (method : Str) (h : HandlerFunc) (originalPath : Str) :
    ∀ (fuel : Nat) (r : DefaultRouter) (i : Nat) (path : Str) (pn : List Str) (ri : RouteInfo),
      (addLoop route method h originalPath fuel r i path pn).2.2.2 = some ri →
      ri.method = route.Method ∧ ri.path = route.Path := by
  intro fuel
  induction fuel with
  | zero =>
    intro r i path pn ri h0
    exact Option.noConfusion h0
  | succ n ih =>
    intro r i path pn ri h0
    simp only [addLoop] at h0
    repeat' split at h0
    all_goals first
      | exact ih _ _ _ _ _ h0
      | exact Option.noConfusion h0
      | (rw [← Option.some.inj h0]; exact ⟨rfl, rfl⟩)

/-- `Add` on a handler-less route: missing-handler error (lines 400-404). -/
theorem Add_missing (r : DefaultRouter) (route : Route) (h : route.Handler = none) :
    Add r route
      = Except.error { Method := route.Method, Path := route.Path, Err := .missingHandler } := by
  simp [Echo.Add, h]

/-- `Add` with overwriting disabled and the exact `(method, path)` in the
registry: duplicate-route error (lines 408-414). -/
theorem Add_duplicate (r : DefaultRouter) (route : Route) (h0 : route.Handler.isSome = true)
    (hal : r.allowOverwritingRoute = false)
    (hdup : r.routes.any (fun rr => route.Method == rr.method && route.Path == rr.path) = true) :
    Add r route
      = Except.error { Method := route.Method, Path := route.Path, Err := .duplicateRoute } := by
  obtain ⟨v, hv⟩ := Option.isSome_iff_exists.mp h0
  simp [Echo.Add, hv, hal, hdup]

/-- `Add` with overwriting enabled never fails (given a handler). -/
theorem Add_overwrite_ok (r : DefaultRouter) (route : Route) (h0 : route.Handler.isSome = true)
    (hal : r.allowOverwritingRoute = true) :
    (Add r route).isOk = true := by
  obtain ⟨v, hv⟩ := Option.isSome_iff_exists.mp h0
  simp only [Echo.Add, hv, hal, Bool.not_true, Bool.false_and, Bool.false_eq_true, if_false]
  split <;> rfl

/-- `Add` with overwriting enabled, when the `(method, path)` is already at
registry index `i`: the new `RouteInfo` replaces that entry in place
(`storeRouteInfo`, lines 485-493) — it is not appended. -/
theorem Add_overwrite_inplace (r : DefaultRouter) (route : Route) (i : Nat)
    (ri : RouteInfo) (r2 : DefaultRouter)
    (hal : r.allowOverwritingRoute = true)
    (hidx : r.routes.findIdx? (fun rr => route.Method == rr.method && route.Path == rr.path)
      = some i)
    (heq : Add r route = Except.ok (ri, r2)) :
    r2.routes = r.routes.set i ri := by
  cases hv : route.Handler with
  | none =>
    rw [Add_missing r route hv] at heq
    exact absurd heq (by simp)
  | some v =>
    simp only [Echo.Add, hv, hal, Bool.not_true, Bool.false_and, Bool.false_eq_true,
      if_false] at heq
    split at heq
    case _ ri0 hsc =>
      have hshape := addLoop_some_shape route route.Method (applyMiddleware v) _ _ _ _ _ _ _ hsc
      rw [Except.ok.injEq, Prod.mk.injEq] at heq
      obtain ⟨hri, hr2⟩ := heq
      subst hri
      rw [← hr2]
      simp only [storeRouteInfo, hshape.1, hshape.2, addLoop_routes, hidx]
    case _ hsc =>
      rw [Except.ok.injEq, Prod.mk.injEq] at heq
      obtain ⟨hri, hr2⟩ := heq
      subst hri
      rw [← hr2]
      simp only [storeRouteInfo, insert_routes, addLoop_routes, Route.ToRouteInfo, hidx]

/-- When the loop ends with no best path match and no matched method, the
assembly yields NotFound. -/
theorem assembleNF (r : DefaultRouter) (st : LoopState) (h1 : st.prevBest = none)
    (h2 : st.matched = none) :
    (matchAssemble r st).1.MatchType = RouteMatchType.RouteMatchNotFound := by
  simp only [matchAssemble, h1, h2]
  split <;> simp

/-- On the `axRemovedLit` tree — a childless, handler-less root — the match
loop never records a best path match nor a matched method, for any fuel,
phase, remaining search and parameter state. -/
theorem axLoop (path method : Str) :
    ∀ (fuel : Nat) (ph : MPhase) (st : LoopState),
      (st.currentNode = some 0 ∨ st.currentNode = none) → st.prevBest = none →
      st.matched = none →
      ((matchLoop axRemovedLit.nodes path method fuel ph st).prevBest = none ∧
        (matchLoop axRemovedLit.nodes path method fuel ph st).matched = none) := by
  intro fuel
  induction fuel with
  | zero =>
    intro ph st _ h2 h3
    simpa [matchLoop] using ⟨h2, h3⟩
  | succ n ih =>
    intro ph st h1 h2 h3
    have hroot : getN axRemovedLit.nodes 0 = axRootLit := rfl
    rcases h1 with h1 | h1
    · cases ph
      case top =>
        by_cases hl : lcpOf st.search [47, 97, 47] = 3
        · simp only [matchLoop, h1, hroot, axRootLit, findStaticChild, List.find?,
            List.length_cons, List.length_nil, hl, h2, h3]
          simp only [ite_self]
          simp
          exact ih .par _ (Or.inl rfl) rfl rfl
        · simp [matchLoop, h1, hroot, axRootLit, backtrackStep, hl, h2, h3,
            staticKind, paramKind, anyKind]
      case par =>
        simp only [matchLoop, h1, hroot, axRootLit]
        simp only [ite_self]
        exact ih .anyP _ (Or.inl h1) h2 h3
      case anyP =>
        simp [matchLoop, h1, hroot, axRootLit, backtrackStep, h2, h3,
          staticKind, paramKind, anyKind]
    · simp [matchLoop, h1, h2, h3]

/-- Every branch of `Remove` either reports no error or returns the router
unchanged (all error returns precede any mutation). -/
theorem remove_error_or_id (r : DefaultRouter) (method path : Str) :
    (Remove r method path).1 = none ∨ (Remove r method path).2 = r := by
  simp only [Remove]
  repeat first
    | exact Or.inr rfl
    | exact Or.inl rfl
    | split

/-! #### The claims -/

/-- Claim C1 (code_bug).  The spec says the matcher uses the decoded path by
default and the raw path only when `UseEscapedPathForMatching` is true, so
`GET /café` with the flag false must match a request whose raw path is
`/caf%C3%A9` (decoded `/café`).  The code at `Match` (line 718) negates the
flag: with the flag FALSE it matches against `URL.RawPath`, yielding
NotFound on the spec's scenario 8, and with the flag TRUE it matches the
decoded `URL.Path`, yielding Found — the exact inverse of the spec and of
the flag's own documentation. -/
theorem C1_path_source_inverted :
    (Match cafeRouter cafeReq (freshParams 4)).1.MatchType =
      RouteMatchType.RouteMatchNotFound
    ∧ (Match cafeRouterEsc cafeReq (freshParams 4)).1.MatchType =
      RouteMatchType.RouteMatchFound := by decide

/-- Claim C2, counterexample.  With only `GET /users/:id` registered, the
request `GET /users/42/posts` does NOT produce NotFound: the `:id` node is
a leaf, so the matcher's param-leaf rule absorbs the whole remainder
(including the `/`) and the route matches. -/
theorem C2_counterexample :
    (Match usersIdRouter (getReq "/users/42/posts") (freshParams 4)).1.MatchType
        = RouteMatchType.RouteMatchFound
    ∧ (Match usersIdRouter (getReq "/users/42/posts") (freshParams 4)).1.MatchType
        ≠ RouteMatchType.RouteMatchNotFound := by decide

/-- Claim C2 as amended.  With only `GET /users/:id` registered, the request
`GET /users/42/posts` produces Found for route `/users/:id`: because the
`:id` node has no children, the parameter extends past the `/` and captures
`42/posts`. -/
theorem C2_amended :
    (Match usersIdRouter (getReq "/users/42/posts") (freshParams 4)).1.MatchType
        = RouteMatchType.RouteMatchFound
    ∧ (Match usersIdRouter (getReq "/users/42/posts") (freshParams 4)).1.RoutePath
        = bytes "/users/:id"
    ∧ (Match usersIdRouter (getReq "/users/42/posts") (freshParams 4)).2
        = [{ Name := bytes "id", Value := bytes "42/posts" }] := by decide

/-- Claim C3 (confirmed).  For EVERY tree, state and position: when the
match loop takes the Param branch (a param child exists and search is
non-empty), the parameter value recorded at the current param index is the
bytes up to (but not including) the next `/` — except when the param node
is a leaf, in which case it is the entire remainder — and the search
continues after exactly those bytes (from the next `/`, or exhausted when
the node is a leaf). -/
theorem C3_param_consumption (ns : List node) (path method : Str) (fuel : Nat)
    (st : LoopState) (ci child : Nat)
    (hc : st.currentNode = some ci) (hs : st.search ≠ [])
    (hp : (getN ns ci).paramChild = some child) :
    matchLoop ns path method (fuel + 1) .par st =
      matchLoop ns path method fuel .top
        { st with
          currentNode := some child,
          pathParams := st.pathParams.set st.paramIndex
            { st.pathParams.getD st.paramIndex emptyParam with
              Value := if (getN ns child).isLeaf then st.search
                else st.search.takeWhile (fun b => !(b == slashByte)) },
          paramIndex := st.paramIndex + 1,
          search := if (getN ns child).isLeaf then []
            else st.search.dropWhile (fun b => !(b == slashByte)),
          searchIndex := st.searchIndex + (if (getN ns child).isLeaf then st.search.length
            else (st.search.takeWhile (fun b => !(b == slashByte))).length) } := by
  rw [step_par_desc ns path method fuel st ci child hc hs hp]
  by_cases hl : (getN ns child).isLeaf <;>
    simp [hl, take_len_takeWhile, drop_len_takeWhile, List.take_length, List.drop_length]

/-- Witness for C3 at concrete inputs: a non-leaf param node (`/a/:x/b`)
records `1` from `1/b`, a leaf param node (`/users/:id`) records the whole
remainder `42/posts`. -/
theorem C3_param_consumption_witness :
    (matchLoop axbRouter.nodes (bytes "1/b") MethodGet 1 .par
      { currentNode := some 0, prevBest := none, matched := none,
        search := bytes "1/b", searchIndex := 3, paramIndex := 0,
        pathParams := freshParams 4 }).pathParams.getD 0 emptyParam
      = { Name := [], Value := bytes "1" }
    ∧ (matchLoop usersIdRouter.nodes (bytes "42/posts") MethodGet 1 .par
      { currentNode := some 0, prevBest := none, matched := none,
        search := bytes "42/posts", searchIndex := 7, paramIndex := 0,
        pathParams := freshParams 4 }).pathParams.getD 0 emptyParam
      = { Name := [], Value := bytes "42/posts" } := by
  constructor
  · rw [C3_param_consumption axbRouter.nodes (bytes "1/b") MethodGet 0 _ 0 1 rfl
      (by decide) (by decide)]
    decide
  · rw [C3_param_consumption usersIdRouter.nodes (bytes "42/posts") MethodGet 0 _ 0 1 rfl
      (by decide) (by decide)]
    decide

/-- Claim C4 (confirmed).  Node-kind priority Static > Param > CatchAll.
With `GET /users/:id` and `GET /users/me` both registered, EVERY request
`GET /users/<v>` (v nonempty) returns Found, for route `/users/me` with its
handler when v = "me" (static beats param) and for route `/users/:id` with
its handler otherwise.  With `GET /files/:x` and `GET /files/*` both
registered, EVERY request `GET /files/<v>` (v nonempty) returns the param
route `/files/:x` (param beats catch-all) — note the param-leaf rule makes
`:x` absorb slashes here, so the two routes' match sets coincide on all
nonempty tails.  The catch-all is reachable only for the empty tail
`GET /files/`, where the param route cannot match. -/
theorem C4_priority :
    (∀ (v : Str), v ≠ [] →
      ((Match usersBothRouter
          { Method := MethodGet, URLPath := bytes "/users/" ++ v, URLRawPath := [] }
          (freshParams 4)).1.MatchType,
       (Match usersBothRouter
          { Method := MethodGet, URLPath := bytes "/users/" ++ v, URLRawPath := [] }
          (freshParams 4)).1.RoutePath,
       (Match usersBothRouter
          { Method := MethodGet, URLPath := bytes "/users/" ++ v, URLRawPath := [] }
          (freshParams 4)).1.Handler) =
        (RouteMatchType.RouteMatchFound,
         if v = bytes "me" then bytes "/users/me" else bytes "/users/:id",
         if v = bytes "me" then HandlerFunc.user 2 else HandlerFunc.user 1))
    ∧ (∀ (v : Str), v ≠ [] →
      ((Match filesBothRouter
          { Method := MethodGet, URLPath := bytes "/files/" ++ v, URLRawPath := [] }
          (freshParams 4)).1.MatchType,
       (Match filesBothRouter
          { Method := MethodGet, URLPath := bytes "/files/" ++ v, URLRawPath := [] }
          (freshParams 4)).1.RoutePath,
       (Match filesBothRouter
          { Method := MethodGet, URLPath := bytes "/files/" ++ v, URLRawPath := [] }
          (freshParams 4)).1.Handler) =
        (RouteMatchType.RouteMatchFound, bytes "/files/:x", HandlerFunc.user 1))
    ∧ ((Match filesBothRouter (getReq "/files/") (freshParams 4)).1.MatchType
          = RouteMatchType.RouteMatchFound
        ∧ (Match filesBothRouter (getReq "/files/") (freshParams 4)).1.RoutePath
          = bytes "/files/*") := by
  refine ⟨?_, ?_, by decide⟩
  · intro v hv
    cases v with
    | nil => exact absurd rfl hv
    | cons a w =>
      rw [usersBoth_eq, Match_unfold _ _ _ rfl]
      dsimp only
      rw [show (usersBothLit.nodes.length + 2) * 8 = 40 from by decide]
      by_cases ha : a = 109
      · subst ha
        cases w with
        | nil =>
          rw [show usersBothLit = usersBothRouter from usersBoth_eq.symm]
          decide
        | cons b w2 =>
          rw [step_top_static_desc _ _ _ _ _ 0 2 (bytes "/users/") rfl (by decide) (by decide)
            (lcpOf_append_self _ _)
            (by rw [List.drop_left]; exact fun h => List.noConfusion h)
            (by rw [List.drop_left]
                simp [findStaticChild, List.find?,
                  show (getN usersBothLit.nodes 0).staticChildren = [2] from by decide,
                  show (getN usersBothLit.nodes 2).label = 109 from by decide])]
          simp only [List.drop_left]
          by_cases hb : b = 101
          · subst hb
            cases w2 with
            | nil =>
              rw [show usersBothLit = usersBothRouter from usersBoth_eq.symm]
              decide
            | cons c w3 =>
              rw [step_top_static_topar _ _ _ _ _ 2 (bytes "me") rfl (by decide) (by decide)
                (lcpOf_append_self (bytes "me") (c :: w3))
                (by rw [show (109 :: 101 :: c :: w3 : Str) = bytes "me" ++ (c :: w3) from rfl,
                      List.drop_left]
                    exact fun h => List.noConfusion h)
                (by simp [findStaticChild,
                  show (getN usersBothLit.nodes 2).staticChildren = [] from by decide])]
              rw [step_par_toany _ _ _ _ _ 2 rfl (Or.inr (by decide))]
              rw [step_any_backtrack_parent _ _ _ _ _ 2 0 (bytes "me") rfl (by decide)
                (by decide) (by decide) (by decide)]
              simp only [Nat.add_sub_cancel, Nat.zero_add, List.drop_left]
              rw [step_par_desc _ _ _ _ _ 0 1 rfl (fun h => List.noConfusion h) (by decide)]
              simp only [show (getN usersBothLit.nodes 1).isLeaf = true from by decide, if_true,
                List.take_length, List.drop_length]
              rw [step_top_param_found _ _ _ _ _ 1
                (userRM MethodGet (bytes "/users/:id") [bytes "id"] 1)
                rfl (by decide) rfl (by decide) (by decide)]
              have hne2 : (109 :: 101 :: c :: w3 : Str) ≠ bytes "me" := by
                simp [bytes, charUtf8]
              simp [matchAssemble, usersBothLit, getN, userRM, getOnly, emptyMethods, hne2]
          · rw [step_top_static_mismatch_parent _ _ _ _ _ 2 0 rfl (by decide)
              (by rw [show (getN usersBothLit.nodes 2).pref = bytes "me" from by decide]
                  simp [bytes, charUtf8, lcpOf, hb])
              (by decide)]
            rw [step_par_desc _ _ _ _ _ 0 1 rfl (fun h => List.noConfusion h) (by decide)]
            simp only [show (getN usersBothLit.nodes 1).isLeaf = true from by decide, if_true,
              List.take_length, List.drop_length]
            rw [step_top_param_found _ _ _ _ _ 1
              (userRM MethodGet (bytes "/users/:id") [bytes "id"] 1)
              rfl (by decide) rfl (by decide) (by decide)]
            have hne2 : (109 :: b :: w2 : Str) ≠ bytes "me" := by
              simp [bytes, charUtf8, hb]
            simp [matchAssemble, usersBothLit, getN, userRM, getOnly, emptyMethods, hne2]
      · rw [step_top_static_topar _ _ _ _ _ 0 (bytes "/users/") rfl (by decide) (by decide)
          (lcpOf_append_self _ _)
          (by rw [List.drop_left]; exact fun h => List.noConfusion h)
          (by rw [List.drop_left]
              simp [findStaticChild, List.find?,
                show (getN usersBothLit.nodes 0).staticChildren = [2] from by decide,
                show (getN usersBothLit.nodes 2).label = 109 from by decide,
                show (109 == a) = false from beq_eq_false_iff_ne.mpr (Ne.symm ha)])]
        rw [step_par_desc _ _ _ _ _ 0 1 rfl (by rw [List.drop_left]; exact hv) (by decide)]
        simp only [show (getN usersBothLit.nodes 1).isLeaf = true from by decide, if_true,
          List.drop_left, List.take_length, List.drop_length]
        rw [step_top_param_found _ _ _ _ _ 1
          (userRM MethodGet (bytes "/users/:id") [bytes "id"] 1)
          rfl (by decide) rfl (by decide) (by decide)]
        have hne2 : (a :: w : Str) ≠ bytes "me" := by
          simp [bytes, charUtf8, ha]
        simp [matchAssemble, usersBothLit, getN, userRM, getOnly, emptyMethods, hne2]
  · intro v hv
    rw [filesBoth_eq, Match_unfold _ _ _ rfl]
    dsimp only
    rw [show (filesBothLit.nodes.length + 2) * 8 = 40 from by decide]
    rw [step_top_static_topar _ _ _ _ _ 0 (bytes "/files/") rfl (by decide) (by decide)
      (lcpOf_append_self _ _)
      (by rw [List.drop_left]; exact hv)
      (by simp [findStaticChild,
        show (getN filesBothLit.nodes 0).staticChildren = [] from by decide])]
    rw [step_par_desc _ _ _ _ _ 0 1 rfl (by rw [List.drop_left]; exact hv) (by decide)]
    simp only [show (getN filesBothLit.nodes 1).isLeaf = true from by decide, if_true,
      List.drop_left, List.take_length, List.drop_length]
    rw [step_top_param_found _ _ _ _ _ 1
      (userRM MethodGet (bytes "/files/:x") [bytes "x"] 1)
      rfl (by decide) rfl (by decide) (by decide)]
    simp [matchAssemble, filesBothLit, getN, userRM, getOnly, emptyMethods]

/-- Witness for C4 at concrete tails: `/users/me` returns the static route,
`/users/x` the param route, `/files/a` the param route over the catch-all. -/
theorem C4_priority_witness :
    ((Match usersBothRouter
        { Method := MethodGet, URLPath := bytes "/users/" ++ bytes "me", URLRawPath := [] }
        (freshParams 4)).1.MatchType,
     (Match usersBothRouter
        { Method := MethodGet, URLPath := bytes "/users/" ++ bytes "me", URLRawPath := [] }
        (freshParams 4)).1.RoutePath,
     (Match usersBothRouter
        { Method := MethodGet, URLPath := bytes "/users/" ++ bytes "me", URLRawPath := [] }
        (freshParams 4)).1.Handler) =
      (RouteMatchType.RouteMatchFound,
       if bytes "me" = bytes "me" then bytes "/users/me" else bytes "/users/:id",
       if bytes "me" = bytes "me" then HandlerFunc.user 2 else HandlerFunc.user 1)
    ∧ ((Match usersBothRouter
        { Method := MethodGet, URLPath := bytes "/users/" ++ bytes "x", URLRawPath := [] }
        (freshParams 4)).1.MatchType,
     (Match usersBothRouter
        { Method := MethodGet, URLPath := bytes "/users/" ++ bytes "x", URLRawPath := [] }
        (freshParams 4)).1.RoutePath,
     (Match usersBothRouter
        { Method := MethodGet, URLPath := bytes "/users/" ++ bytes "x", URLRawPath := [] }
        (freshParams 4)).1.Handler) =
      (RouteMatchType.RouteMatchFound,
       if bytes "x" = bytes "me" then bytes "/users/me" else bytes "/users/:id",
       if bytes "x" = bytes "me" then HandlerFunc.user 2 else HandlerFunc.user 1)
    ∧ ((Match filesBothRouter
        { Method := MethodGet, URLPath := bytes "/files/" ++ bytes "a", URLRawPath := [] }
        (freshParams 4)).1.MatchType,
     (Match filesBothRouter
        { Method := MethodGet, URLPath := bytes "/files/" ++ bytes "a", URLRawPath := [] }
        (freshParams 4)).1.RoutePath,
     (Match filesBothRouter
        { Method := MethodGet, URLPath := bytes "/files/" ++ bytes "a", URLRawPath := [] }
        (freshParams 4)).1.Handler) =
      (RouteMatchType.RouteMatchFound, bytes "/files/:x", HandlerFunc.user 1) :=
  ⟨C4_priority.1 (bytes "me") (by decide), C4_priority.1 (bytes "x") (by decide),
   C4_priority.2.1 (bytes "a") (by decide)⟩

/-- Claim C5 (confirmed).  For EVERY router and final loop state: when no
handler node was matched and no best path match recorded, the assembly
returns NotFound with empty route path and empty params; when no method
entry was matched but a best path match with a handler node was recorded,
it returns MethodNotAllowed carrying that node's original pattern and the
stock method-not-allowed handler.  At the `Match` level, for the router
with only `POST /users` registered and EVERY request path p: `GET p` yields
MethodNotAllowed with route path `/users` exactly when p = "/users", and
NotFound with empty route path otherwise; `POST /users` itself is Found. -/
theorem C5_notfound_vs_methodnotallowed :
    (∀ (r : DefaultRouter) (st : LoopState), st.matched = none → st.prevBest = none →
      ((matchAssemble r st).1.MatchType, (matchAssemble r st).1.RoutePath,
        (matchAssemble r st).2)
        = (RouteMatchType.RouteMatchNotFound, [], []))
    ∧ (∀ (r : DefaultRouter) (st : LoopState) (pb : Nat), st.matched = none →
        st.prevBest = some pb → (getN r.nodes pb).isHandler = true →
      ((matchAssemble r st).1.MatchType, (matchAssemble r st).1.RoutePath,
        (matchAssemble r st).1.Handler)
        = (RouteMatchType.RouteMatchMethodNotAllowed, (getN r.nodes pb).originalPath,
           methodNotAllowedHandler))
    ∧ (∀ (p : Str),
      ((Match postUsersRouter { Method := MethodGet, URLPath := p, URLRawPath := [] }
          (freshParams 4)).1.MatchType,
       (Match postUsersRouter { Method := MethodGet, URLPath := p, URLRawPath := [] }
          (freshParams 4)).1.RoutePath) =
        (if p = bytes "/users" then RouteMatchType.RouteMatchMethodNotAllowed
          else RouteMatchType.RouteMatchNotFound,
         if p = bytes "/users" then bytes "/users" else []))
    ∧ (Match postUsersRouter
        { Method := MethodPost, URLPath := bytes "/users", URLRawPath := [] }
        (freshParams 4)).1.MatchType = RouteMatchType.RouteMatchFound := by
  refine ⟨?_, ?_, ?_, by decide⟩
  · intro r st h1 h2
    simp [matchAssemble, h1, h2]
  · intro r st pb h1 h2 h3
    simp [matchAssemble, h1, h2, h3]
  · intro p
    by_cases hp : p = bytes "/users"
    · subst hp
      decide
    · rw [postUsers_eq, Match_unfold _ _ _ rfl]
      dsimp only
      rw [show (postUsersLit.nodes.length + 2) * 8 = 24 from by decide]
      by_cases hl : lcpOf p (bytes "/users") = (bytes "/users").length
      · by_cases hd : p.drop (bytes "/users").length = []
        · exfalso
          have h2 := lcpOf_full_imp (bytes "/users") p hl
          rw [hd, List.append_nil] at h2
          exact hp h2
        · rw [step_top_static_topar _ _ _ _ _ 0 (bytes "/users") rfl (by decide) (by decide)
            hl hd
            (by simp [findStaticChild,
              show (getN postUsersLit.nodes 0).staticChildren = [] from by decide])]
          rw [step_par_toany _ _ _ _ _ 0 rfl (Or.inr (by decide))]
          rw [step_any_backtrack_noparent _ _ _ _ _ 0 (bytes "/users") rfl (by decide)
            (by decide) (by decide) (by decide)]
          simp [matchAssemble, hp]
      · rw [step_top_static_mismatch_noparent _ _ _ _ _ 0 rfl (by decide)
          (by rw [show (getN postUsersLit.nodes 0).pref = bytes "/users" from by decide]
              exact hl)
          (by decide)]
        simp [matchAssemble, hp]

/-- Witness for C5: the assembly conjuncts at concrete states (a fresh
router with an all-none state; the `POST /users` router with a best path
match at its handler-bearing root), and the `Match`-level characterization
at the paths `/users` and `/nope`. -/
theorem C5_notfound_vs_methodnotallowed_witness :
    ((matchAssemble (NewRouter cfgOff)
        { currentNode := none, prevBest := none, matched := none, search := [],
          searchIndex := 0, paramIndex := 0, pathParams := freshParams 4 }).1.MatchType,
     (matchAssemble (NewRouter cfgOff)
        { currentNode := none, prevBest := none, matched := none, search := [],
          searchIndex := 0, paramIndex := 0, pathParams := freshParams 4 }).1.RoutePath,
     (matchAssemble (NewRouter cfgOff)
        { currentNode := none, prevBest := none, matched := none, search := [],
          searchIndex := 0, paramIndex := 0, pathParams := freshParams 4 }).2)
      = (RouteMatchType.RouteMatchNotFound, [], [])
    ∧ ((matchAssemble postUsersRouter
        { currentNode := none, prevBest := some 0, matched := none, search := [],
          searchIndex := 0, paramIndex := 0, pathParams := freshParams 4 }).1.MatchType,
     (matchAssemble postUsersRouter
        { currentNode := none, prevBest := some 0, matched := none, search := [],
          searchIndex := 0, paramIndex := 0, pathParams := freshParams 4 }).1.RoutePath,
     (matchAssemble postUsersRouter
        { currentNode := none, prevBest := some 0, matched := none, search := [],
          searchIndex := 0, paramIndex := 0, pathParams := freshParams 4 }).1.Handler)
      = (RouteMatchType.RouteMatchMethodNotAllowed,
         (getN postUsersRouter.nodes 0).originalPath, methodNotAllowedHandler)
    ∧ ((Match postUsersRouter
          { Method := MethodGet, URLPath := bytes "/users", URLRawPath := [] }
          (freshParams 4)).1.MatchType,
       (Match postUsersRouter
          { Method := MethodGet, URLPath := bytes "/users", URLRawPath := [] }
          (freshParams 4)).1.RoutePath) =
        (if bytes "/users" = bytes "/users" then RouteMatchType.RouteMatchMethodNotAllowed
          else RouteMatchType.RouteMatchNotFound,
         if bytes "/users" = bytes "/users" then bytes "/users" else [])
    ∧ ((Match postUsersRouter
          { Method := MethodGet, URLPath := bytes "/nope", URLRawPath := [] }
          (freshParams 4)).1.MatchType,
       (Match postUsersRouter
          { Method := MethodGet, URLPath := bytes "/nope", URLRawPath := [] }
          (freshParams 4)).1.RoutePath) =
        (if bytes "/nope" = bytes "/users" then RouteMatchType.RouteMatchMethodNotAllowed
          else RouteMatchType.RouteMatchNotFound,
         if bytes "/nope" = bytes "/users" then bytes "/users" else []) :=
  ⟨C5_notfound_vs_methodnotallowed.1 (NewRouter cfgOff) _ rfl rfl,
   C5_notfound_vs_methodnotallowed.2.1 postUsersRouter _ 0 rfl rfl (by decide),
   C5_notfound_vs_methodnotallowed.2.2.1 (bytes "/users"),
   C5_notfound_vs_methodnotallowed.2.2.1 (bytes "/nope")⟩

/-- Claim C6 (confirmed).  For EVERY router and route: `Add` fails with a
missing-handler error when the handler is absent; with a duplicate-route
error when the exact (method, path) is already registered and overwriting
is disabled; with overwriting enabled it always succeeds, and when the
(method, path) sits at registry index i the new `RouteInfo` replaces that
entry in place (the registry is not appended to).  Concretely,
re-registering `GET /users` with a new name and handler on an
overwriting-enabled router leaves a one-entry registry with the new name,
and the new handler is the one served. -/
theorem C6_add_error_and_overwrite :
    (∀ (r : DefaultRouter) (route : Route), route.Handler = none →
      Add r route
        = Except.error { Method := route.Method, Path := route.Path, Err := .missingHandler })
    ∧ (∀ (r : DefaultRouter) (route : Route), route.Handler.isSome = true →
        r.allowOverwritingRoute = false →
        r.routes.any (fun rr => route.Method == rr.method && route.Path == rr.path) = true →
      Add r route
        = Except.error { Method := route.Method, Path := route.Path, Err := .duplicateRoute })
    ∧ (∀ (r : DefaultRouter) (route : Route), route.Handler.isSome = true →
        r.allowOverwritingRoute = true → (Add r route).isOk = true)
    ∧ (∀ (r : DefaultRouter) (route : Route) (i : Nat) (ri : RouteInfo) (r2 : DefaultRouter),
        r.allowOverwritingRoute = true →
        r.routes.findIdx? (fun rr => route.Method == rr.method && route.Path == rr.path)
          = some i →
        Add r route = Except.ok (ri, r2) → r2.routes = r.routes.set i ri)
    ∧ ((addOk owBaseRouter secondUsersRoute).routes
        = [{ method := MethodGet, path := bytes "/users", name := bytes "second",
             params := [] }]
      ∧ (Match (addOk owBaseRouter secondUsersRoute) (getReq "/users")
          (freshParams 4)).1.Handler = HandlerFunc.user 2) :=
  ⟨Add_missing, Add_duplicate, Add_overwrite_ok, Add_overwrite_inplace, by decide⟩

/-- Witness for C6 at concrete inputs: a handler-less `GET /users` is
rejected; a duplicate `GET /users` is rejected without overwriting; with
overwriting, re-adding `GET /users` succeeds and replaces registry entry
0 in place. -/
theorem C6_add_error_and_overwrite_witness :
    Add (NewRouter cfgOff)
        { Method := MethodGet, Path := bytes "/users", Name := [], Handler := none }
      = Except.error { Method := MethodGet, Path := bytes "/users", Err := .missingHandler }
    ∧ Add dupBaseRouter (mkRoute MethodGet "/users" 2)
      = Except.error { Method := MethodGet, Path := bytes "/users", Err := .duplicateRoute }
    ∧ (Add owBaseRouter secondUsersRoute).isOk = true
    ∧ (addOk owBaseRouter secondUsersRoute).routes = owBaseRouter.routes.set 0
        { method := MethodGet, path := bytes "/users", name := bytes "second",
          params := [] } :=
  ⟨C6_add_error_and_overwrite.1 (NewRouter cfgOff)
      { Method := MethodGet, Path := bytes "/users", Name := [], Handler := none } rfl,
   C6_add_error_and_overwrite.2.1 dupBaseRouter (mkRoute MethodGet "/users" 2)
      (by decide) (by decide) (by decide),
   C6_add_error_and_overwrite.2.2.1 owBaseRouter secondUsersRoute (by decide) (by decide),
   C6_add_error_and_overwrite.2.2.2.1 owBaseRouter secondUsersRoute 0
      { method := MethodGet, path := bytes "/users", name := bytes "second", params := [] }
      (addOk owBaseRouter secondUsersRoute) (by decide) (by decide) (by decide)⟩

/-- Claim C7, counterexample.  The claimed universal fails: after
registering `GET /a/:x/:y`, `Remove GET /a/:x/:y` returns an error (the
walk in removeWalk cannot navigate past the mid param node, whose
`originalPath` is empty, router.go lines 297-314), the router is left
unchanged, and `GET /a/1/2` — an instantiation of the pattern with no
other route registered — still returns Found, not NotFound. -/
theorem C7_counterexample :
    (Remove axyRouter MethodGet (bytes "/a/:x/:y")).1.isSome = true
    ∧ (Remove axyRouter MethodGet (bytes "/a/:x/:y")).2 = axyRouter
    ∧ (Match axyRouter (getReq "/a/1/2") (freshParams 4)).1.MatchType
        = RouteMatchType.RouteMatchFound
    ∧ (Match (Remove axyRouter MethodGet (bytes "/a/:x/:y")).2 (getReq "/a/1/2")
        (freshParams 4)).1.MatchType ≠ RouteMatchType.RouteMatchNotFound := by decide

/-- Claim C7 as amended.  The guarantee holds when `Remove` succeeds, as it
does for single-segment parameter patterns: registering `GET /a/:x` and
then removing it leaves a router on which every request — in particular
every instantiation `GET /a/<v>` of the removed pattern — yields NotFound:
the removal succeeds and the pruned tree has no handler node left, so no
request can match. -/
theorem C7_add_remove_notfound :
    (Remove axRouter MethodGet (bytes "/a/:x")).1 = none
    ∧ ∀ (req : Request) (ps : List PathParam),
        (Match axRemoved req ps).1.MatchType = RouteMatchType.RouteMatchNotFound := by
  constructor
  · decide
  · intro req ps
    rw [axRemoved_eq]
    simp only [Match]
    exact assembleNF _ _ (axLoop _ _ _ _ _ (Or.inl rfl) rfl rfl).1
      (axLoop _ _ _ _ _ (Or.inl rfl) rfl rfl).2

/-- Claim C8 (confirmed).  After a Found match the output parameter slice
has exactly the matched route's declared parameter count, with the declared
names in occurrence order (the catch-all named `*`) and the instantiating
path substrings as values: for EVERY nonempty tail v, `GET /users/<v>`
against `/users/:id` yields exactly [(id, v)]; for EVERY tail v,
`GET /files/<v>` against `/files/*` yields exactly [(*, v)]; and the
two-segment concrete `GET /a/1/b` against `/a/:x/b` yields exactly
[(x, 1)]. -/
theorem C8_out_params :
    (∀ (v : Str), v ≠ [] →
      (Match usersIdRouter
          { Method := MethodGet, URLPath := bytes "/users/" ++ v, URLRawPath := [] }
          (freshParams 4)).1.RoutePath = bytes "/users/:id"
      ∧ (Match usersIdRouter
          { Method := MethodGet, URLPath := bytes "/users/" ++ v, URLRawPath := [] }
          (freshParams 4)).2 = [{ Name := bytes "id", Value := v }])
    ∧ (∀ (v : Str),
      (Match filesStarRouter
          { Method := MethodGet, URLPath := bytes "/files/" ++ v, URLRawPath := [] }
          (freshParams 4)).1.RoutePath = bytes "/files/*"
      ∧ (Match filesStarRouter
          { Method := MethodGet, URLPath := bytes "/files/" ++ v, URLRawPath := [] }
          (freshParams 4)).2 = [{ Name := [anyLabel], Value := v }])
    ∧ ((Match axbRouter (getReq "/a/1/b") (freshParams 4)).1.RoutePath = bytes "/a/:x/b"
      ∧ (Match axbRouter (getReq "/a/1/b") (freshParams 4)).2
          = [{ Name := bytes "x", Value := bytes "1" }]) := by
  refine ⟨?_, ?_, by decide⟩
  · intro v hv
    rw [usersId_eq, Match_unfold _ _ _ rfl]
    dsimp only
    rw [show (usersIdLit.nodes.length + 2) * 8 = 32 from by decide]
    rw [step_top_static_topar _ _ _ _ _ 0 (bytes "/users/") rfl (by decide) (by decide)
      (lcpOf_append_self _ _)
      (by rw [List.drop_left]; exact hv)
      (by simp [findStaticChild,
        show (getN usersIdLit.nodes 0).staticChildren = [] from by decide])]
    rw [step_par_desc _ _ _ _ _ 0 1 rfl
      (by rw [List.drop_left]; exact hv)
      (by decide)]
    simp only [show (getN usersIdLit.nodes 1).isLeaf = true from by decide, if_true,
      List.drop_left, List.take_length, List.drop_length]
    rw [step_top_param_found _ _ _ _ _ 1
      (userRM MethodGet (bytes "/users/:id") [bytes "id"] 1)
      rfl (by decide) rfl (by decide) (by decide)]
    simp [matchAssemble, setNames, unescapeParams, freshParams, List.replicate,
      usersIdLit, getN, userRM, getOnly, emptyMethods, bytes, charUtf8]
  · intro v
    by_cases hv : v = []
    · subst hv
      decide
    · rw [filesStar_eq, Match_unfold _ _ _ rfl]
      dsimp only
      rw [show (filesStarLit.nodes.length + 2) * 8 = 32 from by decide]
      rw [step_top_static_topar _ _ _ _ _ 0 (bytes "/files/") rfl (by decide) (by decide)
        (lcpOf_append_self _ _)
        (by rw [List.drop_left]; exact hv)
        (by simp [findStaticChild,
          show (getN filesStarLit.nodes 0).staticChildren = [] from by decide])]
      rw [step_par_toany _ _ _ _ _ 0 rfl (Or.inr (by decide))]
      rw [step_any_found _ _ _ _ _ 0 1 (userRM MethodGet (bytes "/files/*") [[anyLabel]] 1)
        rfl (by decide) (by decide)]
      simp only [show (getN filesStarLit.nodes 1).paramsCount = 1 from by decide,
        List.drop_left]
      simp [matchAssemble, setNames, unescapeParams, freshParams, List.replicate,
        filesStarLit, getN, userRM, getOnly, emptyMethods, bytes, charUtf8, anyLabel]

/-- Witness for C8 at concrete tails: `/users/42` gives [(id, 42)],
`/files/a/b/c.txt` gives [(*, a/b/c.txt)]. -/
theorem C8_out_params_witness :
    ((Match usersIdRouter
        { Method := MethodGet, URLPath := bytes "/users/" ++ bytes "42", URLRawPath := [] }
        (freshParams 4)).1.RoutePath = bytes "/users/:id"
      ∧ (Match usersIdRouter
        { Method := MethodGet, URLPath := bytes "/users/" ++ bytes "42", URLRawPath := [] }
        (freshParams 4)).2 = [{ Name := bytes "id", Value := bytes "42" }])
    ∧ ((Match filesStarRouter
        { Method := MethodGet,
          URLPath := bytes "/files/" ++ bytes "a/b/c.txt", URLRawPath := [] }
        (freshParams 4)).1.RoutePath = bytes "/files/*"
      ∧ (Match filesStarRouter
        { Method := MethodGet,
          URLPath := bytes "/files/" ++ bytes "a/b/c.txt", URLRawPath := [] }
        (freshParams 4)).2 = [{ Name := [anyLabel], Value := bytes "a/b/c.txt" }]) :=
  ⟨C8_out_params.1 (bytes "42") (by decide), C8_out_params.2.1 (bytes "a/b/c.txt")⟩

/-- Claim C9 (confirmed).  With UnescapePathParamValues on and a non-Static
terminal node, parameter values are percent-decoded after the match, and a
value whose decoding fails is retained raw: for EVERY nonempty v,
`GET /<v>` against `/:p` yields the parameter value `pathUnescape v` when
decoding succeeds and v itself when it fails.  Concretely a raw path
`/hello%20world` yields "hello world".  A Static terminal is excluded: with
the flag on, `GET /a/h%41/b` against `/a/:x/b` (static terminal `b`) keeps
the raw value "h%41". -/
theorem C9_unescape_param_values :
    (∀ (v : Str), v ≠ [] →
      (Match pRouter
          { Method := MethodGet, URLPath := slashByte :: v, URLRawPath := [] }
          (freshParams 4)).2
        = [{ Name := bytes "p", Value := (pathUnescape v).getD v }])
    ∧ (Match pRouter
        { Method := MethodGet, URLPath := bytes "/hello world",
          URLRawPath := bytes "/hello%20world" }
        (freshParams 4)).2 = [{ Name := bytes "p", Value := bytes "hello world" }]
    ∧ (Match axbUnescapeRouter (getReq "/a/h%41/b") (freshParams 4)).2
        = [{ Name := bytes "x", Value := bytes "h%41" }] := by
  refine ⟨?_, by decide, by decide⟩
  intro v hv
  rw [pRouter_eq, Match_unfold _ _ _ rfl]
  dsimp only
  rw [show (pLit.nodes.length + 2) * 8 = 32 from by decide]
  rw [step_top_static_topar _ _ _ _ _ 0 [slashByte] rfl (by decide) (by decide)
    (lcpOf_append_self [slashByte] v)
    (by simpa using hv)
    (by simp [findStaticChild, show (getN pLit.nodes 0).staticChildren = [] from by decide])]
  rw [step_par_desc _ _ _ _ _ 0 1 rfl (by simpa using hv) (by decide)]
  simp only [show (getN pLit.nodes 1).isLeaf = true from by decide, if_true,
    List.drop_one, List.take_length, List.drop_length]
  rw [step_top_param_found _ _ _ _ _ 1
    (userRM MethodGet (bytes "/:p") [bytes "p"] 1)
    rfl (by decide) (by simp) (by decide) (by decide)]
  simp [matchAssemble, setNames, unescapeParams, freshParams, List.replicate,
    pLit, getN, userRM, getOnly, emptyMethods, bytes, charUtf8]
  cases pathUnescape v <;> simp [staticKind, paramKind]

/-- Witness for C9 at concrete values: `%41` decodes to `A`; the malformed
`x%zz` fails to decode and is retained raw. -/
theorem C9_unescape_param_values_witness :
    (Match pRouter
        { Method := MethodGet, URLPath := slashByte :: bytes "%41", URLRawPath := [] }
        (freshParams 4)).2
      = [{ Name := bytes "p", Value := (pathUnescape (bytes "%41")).getD (bytes "%41") }]
    ∧ (Match pRouter
        { Method := MethodGet, URLPath := slashByte :: bytes "x%zz", URLRawPath := [] }
        (freshParams 4)).2
      = [{ Name := bytes "p", Value := (pathUnescape (bytes "x%zz")).getD (bytes "x%zz") }] :=
  ⟨C9_unescape_param_values.1 (bytes "%41") (by decide),
   C9_unescape_param_values.1 (bytes "x%zz") (by decide)⟩

/-- Claim C10 (confirmed).  `Remove` is atomic on failure: whenever it
returns an error (empty tree, no handler node with the normalized original
path, or no method-table entry for the method), the tree arena and the
routes registry are exactly as before the call. -/
theorem C10_remove_atomic_on_error (r : DefaultRouter) (method path : Str)
    (h : (Remove r method path).1.isSome = true) :
    (Remove r method path).2 = r := by
  rcases remove_error_or_id r method path with h1 | h1
  · rw [h1] at h
    exact absurd h (by simp)
  · exact h1

/-- Witness for C10: removing from a fresh router errors and leaves the
router unchanged. -/
theorem C10_remove_atomic_witness :
    (Remove (NewRouter cfgOff) MethodGet (bytes "/x")).1.isSome = true
    ∧ (Remove (NewRouter cfgOff) MethodGet (bytes "/x")).2 = NewRouter cfgOff :=
  ⟨by decide, C10_remove_atomic_on_error (NewRouter cfgOff) MethodGet (bytes "/x") (by decide)⟩
